import Mathlib

/-
Verification of the semantic-analysis IR of mapd-core (src/Analyzer/Analyzer.cpp).

The SQL type descriptor (SQLTypeInfo), the Datum union and the enum types live
in Shared/sqltypes.h and Shared/sqldefs.h, which are not part of the sources;
those definitions are modelled from the specification (each such definition
carries a doc comment starting with "Modelled from the spec:").  Everything
else is a direct shallow embedding of the member functions of Analyzer.cpp.

Modelling conventions:
  * C++ exceptions (throw std::runtime_error) and glog CHECK(false) aborts are
    both rendered as `Except AnalyzerError`, with one error constructor per
    throw site family (spec section 7 names the error kinds).
  * the C++ union Datum is modelled as a record with one field per union
    member; this is faithful whenever a read follows a write of the same
    member, which is the case on every well-typed path of the source.
  * float/double payloads are modelled as rationals; IEEE rounding is outside
    the model (no claim below depends on a float computation).
  * the derived `size` field of SQLTypeInfo is omitted; set_fixed_size(),
    which only recomputes it, is therefore the identity in this model.
-/

namespace Analyzer2P

/-- Modelled from the spec: the SQL type kind enum of Shared/sqltypes.h
(spec section 3 lists the kinds). -/
inductive SQLTypes where
  | kNULLT
  | kBOOLEAN
  | kCHAR
  | kVARCHAR
  | kNUMERIC
  | kDECIMAL
  | kINT
  | kSMALLINT
  | kFLOAT
  | kDOUBLE
  | kTIME
  | kTIMESTAMP
  | kBIGINT
  | kDATE
  | kTEXT
deriving DecidableEq, Repr

open SQLTypes

/-- Modelled from the spec: the string-compression enum; the spec only uses
NONE and DICT (spec section 3). -/
inductive EncodingType where
  | kENCODING_NONE
  | kENCODING_DICT
deriving DecidableEq, Repr

open EncodingType

/-- Modelled from the spec: SQLTypeInfo of Shared/sqltypes.h with its essential
attributes (spec section 3); the derived size field is omitted and equality is
field-wise as the spec states. -/
structure SQLTypeInfo where
  type : SQLTypes
  subtype : SQLTypes
  dimension : Int
  scale : Int
  notnull : Bool
  compression : EncodingType
  comp_param : Int
deriving DecidableEq, Repr

/-- Modelled from the spec: the two-argument SQLTypeInfo constructor
SQLTypeInfo(t, notnull) with zero dimension and scale. -/
def tinfo2 (t : SQLTypes) (n : Bool) : SQLTypeInfo :=
  ⟨t, kNULLT, 0, 0, n, kENCODING_NONE, 0⟩

/-- Modelled from the spec: the four-argument SQLTypeInfo constructor
SQLTypeInfo(t, dimension, scale, notnull). -/
def tinfo4 (t : SQLTypes) (d s : Int) (n : Bool) : SQLTypeInfo :=
  ⟨t, kNULLT, d, s, n, kENCODING_NONE, 0⟩

/-- Modelled from the spec: the seven-argument SQLTypeInfo constructor
SQLTypeInfo(t, dimension, scale, notnull, compression, comp_param, subtype). -/
def tinfo7 (t : SQLTypes) (d s : Int) (n : Bool) (c : EncodingType)
    (p : Int) (st : SQLTypes) : SQLTypeInfo :=
  ⟨t, st, d, s, n, c, p⟩

/-- Modelled from the spec: SQLTypeInfo::is_number (spec section 3). -/
def SQLTypeInfo.is_number (t : SQLTypeInfo) : Bool :=
  match t.type with
  | kNUMERIC | kDECIMAL | kINT | kSMALLINT | kFLOAT | kDOUBLE | kBIGINT => true
  | _ => false

/-- Modelled from the spec: SQLTypeInfo::is_integer. -/
def SQLTypeInfo.is_integer (t : SQLTypeInfo) : Bool :=
  match t.type with
  | kINT | kSMALLINT | kBIGINT => true
  | _ => false

/-- Modelled from the spec: SQLTypeInfo::is_string (spec section 3). -/
def SQLTypeInfo.is_string (t : SQLTypeInfo) : Bool :=
  match t.type with
  | kCHAR | kVARCHAR | kTEXT => true
  | _ => false

/-- Modelled from the spec: SQLTypeInfo::is_time (spec section 3). -/
def SQLTypeInfo.is_time (t : SQLTypeInfo) : Bool :=
  match t.type with
  | kTIME | kTIMESTAMP | kDATE => true
  | _ => false

/-- Modelled from the spec: the involution on dictionary ids,
TRANSIENT_DICT(id) = -id - 2 (spec sections 3 and 6). -/
def TRANSIENT_DICT (id : Int) : Int := -id - 2

/-- Modelled from the spec: the special transient dictionary id, a negative id
below which dictionary ids are rejected for non-literal casts (spec section 6);
it is the fixed point of the involution TRANSIENT_DICT. -/
def TRANSIENT_DICT_ID : Int := -1

/-- Modelled from the spec: the SQL operator enum of Shared/sqldefs.h (spec
section 3, BinOper/UOper optype). -/
inductive SQLOps where
  | kEQ
  | kNE
  | kLT
  | kGT
  | kLE
  | kGE
  | kAND
  | kOR
  | kNOT
  | kUMINUS
  | kISNULL
  | kEXISTS
  | kCAST
  | kARRAY_AT
  | kUNNEST
  | kPLUS
  | kMINUS
  | kMULTIPLY
  | kDIVIDE
  | kMODULO
deriving DecidableEq, Repr

open SQLOps

/-- Modelled from the spec: IS_COMPARISON of Shared/sqldefs.h (the six
comparison operators, spec section 4.1). -/
def IS_COMPARISON (op : SQLOps) : Bool :=
  match op with
  | kEQ | kNE | kLT | kGT | kLE | kGE => true
  | _ => false

/-- Modelled from the spec: IS_LOGIC of Shared/sqldefs.h (AND, OR, NOT; spec
section 4.1). -/
def IS_LOGIC (op : SQLOps) : Bool :=
  match op with
  | kAND | kOR | kNOT => true
  | _ => false

/-- Modelled from the spec: IS_ARITHMETIC of Shared/sqldefs.h (spec section
4.1). -/
def IS_ARITHMETIC (op : SQLOps) : Bool :=
  match op with
  | kPLUS | kMINUS | kMULTIPLY | kDIVIDE | kMODULO => true
  | _ => false

/-- Modelled from the spec: COMMUTE_COMPARISON of Shared/sqldefs.h
(EQ and NE unchanged, LT and GT swapped, LE and GE swapped; spec section
4.7). -/
def COMMUTE_COMPARISON (op : SQLOps) : SQLOps :=
  match op with
  | kLT => kGT
  | kGT => kLT
  | kLE => kGE
  | kGE => kLE
  | x => x

/-- Modelled from the spec: the BinOper qualifier enum (spec section 3). -/
inductive SQLQualifier where
  | kONE
  | kANY
  | kALL
deriving DecidableEq, Repr

open SQLQualifier

/-- Error kinds of the analyzer (spec section 7); every `throw` of the source
maps to one constructor, and glog CHECK(false) aborts map to checkFailed. -/
inductive AnalyzerError where
  | nonBooleanInLogic
  | incomparableTemporals
  | incomparable
  | nonNumericArithmetic
  | nonIntegerModulo
  | invalidBinaryOp
  | uncastableTypes
  | invalidCast
  | groupByRequiresDictEncoding
  | transientEncodingOnNonLiteral
  | unsupportedSubqueryOp
  | checkFailed
deriving DecidableEq, Repr

/-- BinOper::common_numeric_type (Analyzer.cpp lines 259-417).  The entry
CHECK that both operands are numeric, and the unreachable default branches of
the switches, are rendered as checkFailed errors.  set_fixed_size() only
recomputes the omitted derived size field and is the identity here. -/
def common_numeric_type (type1 type2 : SQLTypeInfo) :
    Except AnalyzerError SQLTypeInfo :=
  if ¬(type1.is_number ∧ type2.is_number) then .error .checkFailed
  else if type1.type = type2.type then
    .ok (tinfo4 type1.type (max type1.dimension type2.dimension)
      (max type1.scale type2.scale) false)
  else
    match type1.type, type2.type with
    | kSMALLINT, kINT => .ok (tinfo2 kINT false)
    | kSMALLINT, kBIGINT => .ok (tinfo2 kBIGINT false)
    | kSMALLINT, kFLOAT => .ok (tinfo2 kFLOAT false)
    | kSMALLINT, kDOUBLE => .ok (tinfo2 kDOUBLE false)
    | kSMALLINT, kNUMERIC | kSMALLINT, kDECIMAL =>
      .ok (tinfo4 kNUMERIC (max (5 + type2.scale) type2.dimension)
        type2.scale false)
    | kINT, kSMALLINT => .ok (tinfo2 kINT false)
    | kINT, kBIGINT => .ok (tinfo2 kBIGINT false)
    | kINT, kFLOAT => .ok (tinfo2 kFLOAT false)
    | kINT, kDOUBLE => .ok (tinfo2 kDOUBLE false)
    | kINT, kNUMERIC | kINT, kDECIMAL =>
      .ok (tinfo4 kNUMERIC (max (min 19 (10 + type2.scale)) type2.dimension)
        type2.scale false)
    | kBIGINT, kSMALLINT => .ok (tinfo2 kBIGINT false)
    | kBIGINT, kINT => .ok (tinfo2 kBIGINT false)
    | kBIGINT, kFLOAT => .ok (tinfo2 kFLOAT false)
    | kBIGINT, kDOUBLE => .ok (tinfo2 kDOUBLE false)
    | kBIGINT, kNUMERIC | kBIGINT, kDECIMAL =>
      .ok (tinfo4 kNUMERIC 19 type2.scale false)
    | kFLOAT, kSMALLINT => .ok (tinfo2 kFLOAT false)
    | kFLOAT, kINT => .ok (tinfo2 kFLOAT false)
    | kFLOAT, kBIGINT => .ok (tinfo2 kFLOAT false)
    | kFLOAT, kDOUBLE => .ok (tinfo2 kDOUBLE false)
    | kFLOAT, kNUMERIC | kFLOAT, kDECIMAL => .ok (tinfo2 kFLOAT false)
    | kDOUBLE, kSMALLINT | kDOUBLE, kINT | kDOUBLE, kBIGINT
    | kDOUBLE, kFLOAT | kDOUBLE, kNUMERIC | kDOUBLE, kDECIMAL =>
      .ok (tinfo2 kDOUBLE false)
    | kNUMERIC, kSMALLINT | kDECIMAL, kSMALLINT =>
      .ok (tinfo4 kNUMERIC (max (5 + type1.scale) type1.dimension)
        type1.scale false)
    -- NOTE: the source (line 385) takes type2.get_dimension() here, the
    -- dimension of the INTEGER operand, unlike the mirrored kINT branch
    -- above which takes the dimension of the DECIMAL operand.
    | kNUMERIC, kINT | kDECIMAL, kINT =>
      .ok (tinfo4 kNUMERIC (max (min 19 (10 + type1.scale)) type2.dimension)
        type1.scale false)
    | kNUMERIC, kBIGINT | kDECIMAL, kBIGINT =>
      .ok (tinfo4 kNUMERIC 19 type1.scale false)
    | kNUMERIC, kFLOAT | kDECIMAL, kFLOAT => .ok (tinfo2 kFLOAT false)
    | kNUMERIC, kDOUBLE | kDECIMAL, kDOUBLE => .ok (tinfo2 kDOUBLE false)
    | kNUMERIC, kNUMERIC | kNUMERIC, kDECIMAL
    | kDECIMAL, kNUMERIC | kDECIMAL, kDECIMAL =>
      .ok (tinfo4 kNUMERIC
        (max (type1.dimension - type1.scale) (type2.dimension - type2.scale)
          + max type1.scale type2.scale)
        (max type1.scale type2.scale) false)
    | _, _ => .error .checkFailed

/-- BinOper::common_string_type (Analyzer.cpp lines 231-257).  When both sides
are DICT encoded but the comp_params are unrelated, the local variables keep
their initial values kENCODING_NONE and 0. -/
def common_string_type (type1 type2 : SQLTypeInfo) :
    Except AnalyzerError SQLTypeInfo :=
  if ¬(type1.is_string ∧ type2.is_string) then .error .checkFailed
  else
    let (comp, comp_param) :=
      if type1.compression = kENCODING_DICT ∧
          type2.compression = kENCODING_DICT then
        if type1.comp_param = type2.comp_param ∨
            type1.comp_param = TRANSIENT_DICT type2.comp_param then
          (kENCODING_DICT, min type1.comp_param type2.comp_param)
        else (kENCODING_NONE, 0)
      else if type1.compression = kENCODING_DICT ∧
          type2.compression = kENCODING_NONE then
        (kENCODING_NONE, type1.comp_param)
      else if type1.compression = kENCODING_NONE ∧
          type2.compression = kENCODING_DICT then
        (kENCODING_NONE, type2.comp_param)
      else (kENCODING_NONE, max type1.comp_param type2.comp_param)
    if type1.type = kTEXT ∨ type2.type = kTEXT then
      .ok (tinfo7 kTEXT 0 0 false comp comp_param kNULLT)
    else
      .ok (tinfo7 kVARCHAR (max type1.dimension type2.dimension) 0 false
        comp comp_param kNULLT)

/-- BinOper::analyze_type_info (Analyzer.cpp lines 111-229): returns the
result type and the two coerced operand types. -/
def analyze_type_info (op : SQLOps) (left_type right_type : SQLTypeInfo) :
    Except AnalyzerError (SQLTypeInfo × SQLTypeInfo × SQLTypeInfo) := do
  let (result_type, new_left, new_right) ←
    if IS_LOGIC op then
      if left_type.type ≠ kBOOLEAN ∨ right_type.type ≠ kBOOLEAN then
        Except.error .nonBooleanInLogic
      else
        Except.ok (tinfo2 kBOOLEAN false, left_type, right_type)
    else if IS_COMPARISON op then do
      let (nl, nr) ←
        if left_type = right_type then Except.ok (left_type, right_type)
        else if left_type.is_number ∧ right_type.is_number then do
          let c ← common_numeric_type left_type right_type
          Except.ok ({c with notnull := left_type.notnull},
            {c with notnull := right_type.notnull})
        else if left_type.is_time ∧ right_type.is_time then
          match left_type.type, right_type.type with
          | kTIMESTAMP, kTIME => Except.error .incomparableTemporals
          | kTIMESTAMP, kDATE => Except.ok (left_type, left_type)
          | kTIMESTAMP, kTIMESTAMP =>
            Except.ok
              (tinfo4 kTIMESTAMP (max left_type.dimension right_type.dimension)
                0 left_type.notnull,
               tinfo4 kTIMESTAMP (max left_type.dimension right_type.dimension)
                0 right_type.notnull)
          | kTIME, kTIMESTAMP => Except.error .incomparableTemporals
          | kTIME, kDATE => Except.error .incomparableTemporals
          | kTIME, kTIME =>
            Except.ok
              (tinfo4 kTIME (max left_type.dimension right_type.dimension)
                0 left_type.notnull,
               tinfo4 kTIME (max left_type.dimension right_type.dimension)
                0 right_type.notnull)
          | kDATE, kTIMESTAMP => Except.ok (right_type, right_type)
          | kDATE, kDATE => Except.ok (left_type, left_type)
          | kDATE, kTIME => Except.error .incomparableTemporals
          | _, _ => Except.error .checkFailed
        else if left_type.is_string ∧ right_type.is_time then
          Except.ok ({right_type with notnull := left_type.notnull},
            right_type)
        else if left_type.is_time ∧ right_type.is_string then
          Except.ok (left_type,
            {left_type with notnull := right_type.notnull})
        else if left_type.is_string ∧ right_type.is_string then
          Except.ok (left_type, right_type)
        else Except.error .incomparable
      Except.ok (tinfo2 kBOOLEAN false, nl, nr)
    else if IS_ARITHMETIC op then
      if ¬(left_type.is_number ∧ right_type.is_number) then
        Except.error .nonNumericArithmetic
      else if op = kMODULO ∧ ¬(left_type.is_integer ∧ right_type.is_integer)
          then Except.error .nonIntegerModulo
      else do
        let c ← common_numeric_type left_type right_type
        Except.ok (c, {c with notnull := left_type.notnull},
          {c with notnull := right_type.notnull})
    else Except.error .invalidBinaryOp
  .ok ({result_type with notnull := left_type.notnull && right_type.notnull},
    new_left, new_right)

/-- Modelled from the spec: NULL_BOOLEAN sentinel (section 6), the int8
minimum. -/
def NULL_BOOLEAN : Int := -128

/-- Modelled from the spec: NULL_SMALLINT = INT16_MIN (section 6). -/
def NULL_SMALLINT : Int := -(2 ^ 15)

/-- Modelled from the spec: NULL_INT = INT32_MIN (section 6). -/
def NULL_INT : Int := -(2 ^ 31)

/-- Modelled from the spec: NULL_BIGINT = INT64_MIN (section 6). -/
def NULL_BIGINT : Int := -(2 ^ 63)

/-- Modelled from the spec: NULL_FLOAT, the IEEE canonical minimum-magnitude
normal float (FLT_MIN), as an exact rational. -/
def NULL_FLOAT : Rat := 1 / 2 ^ 126

/-- Modelled from the spec: NULL_DOUBLE, the IEEE canonical minimum-magnitude
normal double (DBL_MIN), as an exact rational. -/
def NULL_DOUBLE : Rat := 1 / 2 ^ 1022

/-- Modelled from the spec: the Datum union of Shared/sqltypes.h (section 3),
rendered as a record with one field per union member.  This is faithful
whenever a read follows a write of the same member, which holds on every
well-typed path of the source.  boolval is an int8 in the source. -/
structure Datum where
  boolval : Int := 0
  smallintval : Int := 0
  intval : Int := 0
  bigintval : Int := 0
  floatval : Rat := 0
  doubleval : Rat := 0
  timeval : Int := 0
  stringval : String := ""
deriving DecidableEq, Repr

/-- Two's-complement wrap to int16, the effect of the C++ narrowing cast
(int16_t)x. -/
def wrap16 (v : Int) : Int := (v + 2 ^ 15).emod (2 ^ 16) - 2 ^ 15

/-- Two's-complement wrap to int32, the effect of the C++ narrowing cast
(int32_t)x. -/
def wrap32 (v : Int) : Int := (v + 2 ^ 31).emod (2 ^ 32) - 2 ^ 31

/-- Truncation toward zero, the effect of the C++ float-to-integer cast
(the out-of-range case is undefined behavior in C++ and modelled as exact
truncation). -/
def ratTrunc (q : Rat) : Int := if q < 0 then -((-q).floor) else q.floor

/-- Effect of the source loop `for (int i = 0; i < s; i++) v *= 10;`
(the loop body runs s.toNat times). -/
def mul10s (v : Int) (s : Int) : Int := v * 10 ^ s.toNat

/-- Effect of the source loop `for (int i = 0; i < s; i++) v /= 10;`:
repeated truncated integer division by ten. -/
def div10s (v : Int) : Nat → Int
  | 0 => v
  | n + 1 => div10s (Int.tdiv v 10) n

/-- Constant::cast_number (Analyzer.cpp lines 452-682): value-level numeric
conversion of the stored Datum, returning the updated type_info and Datum.
Unreachable default branches are checkFailed.  Integer-to-float conversions
are exact rationals here (IEEE rounding is outside the model); no claim below
evaluates a float branch. -/
def cast_number (ti : SQLTypeInfo) (d : Datum) (new_ti : SQLTypeInfo) :
    Except AnalyzerError (SQLTypeInfo × Datum) :=
  match ti.type, new_ti.type with
  | kINT, kINT => .ok (new_ti, d)
  | kINT, kSMALLINT => .ok (new_ti, {d with smallintval := wrap16 d.intval})
  | kINT, kBIGINT => .ok (new_ti, {d with bigintval := d.intval})
  | kINT, kDOUBLE => .ok (new_ti, {d with doubleval := (d.intval : Rat)})
  | kINT, kFLOAT => .ok (new_ti, {d with floatval := (d.intval : Rat)})
  | kINT, kNUMERIC | kINT, kDECIMAL =>
    .ok (new_ti, {d with bigintval := mul10s d.intval new_ti.scale})
  | kSMALLINT, kINT => .ok (new_ti, {d with intval := d.smallintval})
  | kSMALLINT, kSMALLINT => .ok (new_ti, d)
  | kSMALLINT, kBIGINT => .ok (new_ti, {d with bigintval := d.smallintval})
  | kSMALLINT, kDOUBLE =>
    .ok (new_ti, {d with doubleval := (d.smallintval : Rat)})
  | kSMALLINT, kFLOAT =>
    .ok (new_ti, {d with floatval := (d.smallintval : Rat)})
  | kSMALLINT, kNUMERIC | kSMALLINT, kDECIMAL =>
    .ok (new_ti, {d with bigintval := mul10s d.smallintval new_ti.scale})
  | kBIGINT, kINT => .ok (new_ti, {d with intval := wrap32 d.bigintval})
  | kBIGINT, kSMALLINT =>
    .ok (new_ti, {d with smallintval := wrap16 d.bigintval})
  | kBIGINT, kBIGINT => .ok (new_ti, d)
  | kBIGINT, kDOUBLE => .ok (new_ti, {d with doubleval := (d.bigintval : Rat)})
  | kBIGINT, kFLOAT => .ok (new_ti, {d with floatval := (d.bigintval : Rat)})
  | kBIGINT, kNUMERIC | kBIGINT, kDECIMAL =>
    .ok (new_ti, {d with bigintval := mul10s d.bigintval new_ti.scale})
  | kDOUBLE, kINT => .ok (new_ti, {d with intval := ratTrunc d.doubleval})
  | kDOUBLE, kSMALLINT =>
    .ok (new_ti, {d with smallintval := ratTrunc d.doubleval})
  | kDOUBLE, kBIGINT =>
    .ok (new_ti, {d with bigintval := ratTrunc d.doubleval})
  | kDOUBLE, kDOUBLE => .ok (new_ti, d)
  | kDOUBLE, kFLOAT => .ok (new_ti, {d with floatval := d.doubleval})
  | kDOUBLE, kNUMERIC | kDOUBLE, kDECIMAL =>
    .ok (new_ti,
      {d with doubleval := d.doubleval * 10 ^ new_ti.scale.toNat,
              bigintval := ratTrunc (d.doubleval * 10 ^ new_ti.scale.toNat)})
  | kFLOAT, kINT => .ok (new_ti, {d with intval := ratTrunc d.floatval})
  | kFLOAT, kSMALLINT =>
    .ok (new_ti, {d with smallintval := ratTrunc d.floatval})
  | kFLOAT, kBIGINT => .ok (new_ti, {d with bigintval := ratTrunc d.floatval})
  | kFLOAT, kDOUBLE => .ok (new_ti, {d with doubleval := d.floatval})
  | kFLOAT, kFLOAT => .ok (new_ti, d)
  | kFLOAT, kNUMERIC | kFLOAT, kDECIMAL =>
    .ok (new_ti,
      {d with floatval := d.floatval * 10 ^ new_ti.scale.toNat,
              bigintval := ratTrunc (d.floatval * 10 ^ new_ti.scale.toNat)})
  | kNUMERIC, kINT | kDECIMAL, kINT =>
    .ok (new_ti,
      {d with bigintval := div10s d.bigintval ti.scale.toNat,
              intval := wrap32 (div10s d.bigintval ti.scale.toNat)})
  | kNUMERIC, kSMALLINT | kDECIMAL, kSMALLINT =>
    .ok (new_ti,
      {d with bigintval := div10s d.bigintval ti.scale.toNat,
              smallintval := wrap16 (div10s d.bigintval ti.scale.toNat)})
  | kNUMERIC, kBIGINT | kDECIMAL, kBIGINT =>
    .ok (new_ti, {d with bigintval := div10s d.bigintval ti.scale.toNat})
  | kNUMERIC, kDOUBLE | kDECIMAL, kDOUBLE =>
    .ok (new_ti,
      {d with doubleval := (d.bigintval : Rat) / 10 ^ ti.scale.toNat})
  | kNUMERIC, kFLOAT | kDECIMAL, kFLOAT =>
    .ok (new_ti,
      {d with floatval := (d.bigintval : Rat) / 10 ^ ti.scale.toNat})
  | kNUMERIC, kNUMERIC | kNUMERIC, kDECIMAL
  | kDECIMAL, kNUMERIC | kDECIMAL, kDECIMAL =>
    .ok (new_ti,
      if new_ti.scale > ti.scale then
        {d with bigintval := mul10s d.bigintval (new_ti.scale - ti.scale)}
      else if new_ti.scale < ti.scale then
        {d with bigintval := div10s d.bigintval (ti.scale - new_ti.scale).toNat}
      else d)
  | kTIMESTAMP, kINT => .ok (new_ti, {d with intval := wrap32 d.timeval})
  | kTIMESTAMP, kSMALLINT =>
    .ok (new_ti, {d with smallintval := wrap16 d.timeval})
  | kTIMESTAMP, kBIGINT => .ok (new_ti, {d with bigintval := d.timeval})
  | kTIMESTAMP, kDOUBLE =>
    .ok (new_ti, {d with doubleval := (d.timeval : Rat)})
  | kTIMESTAMP, kFLOAT => .ok (new_ti, {d with floatval := (d.timeval : Rat)})
  | kTIMESTAMP, kNUMERIC | kTIMESTAMP, kDECIMAL =>
    .ok (new_ti, {d with bigintval := mul10s d.timeval new_ti.scale})
  | kBOOLEAN, kINT =>
    .ok (new_ti, {d with intval := if d.boolval ≠ 0 then 1 else 0})
  | kBOOLEAN, kSMALLINT =>
    .ok (new_ti, {d with smallintval := if d.boolval ≠ 0 then 1 else 0})
  | kBOOLEAN, kBIGINT =>
    .ok (new_ti, {d with bigintval := if d.boolval ≠ 0 then 1 else 0})
  | kBOOLEAN, kDOUBLE =>
    .ok (new_ti, {d with doubleval := if d.boolval ≠ 0 then 1 else 0})
  | kBOOLEAN, kFLOAT =>
    .ok (new_ti, {d with floatval := if d.boolval ≠ 0 then 1 else 0})
  | kBOOLEAN, kNUMERIC | kBOOLEAN, kDECIMAL =>
    .ok (new_ti,
      {d with
        bigintval := mul10s (if d.boolval ≠ 0 then 1 else 0) new_ti.scale})
  | _, _ => .error .checkFailed

/-- Constant::cast_string (Analyzer.cpp lines 684-693): truncate the stored
string when the target is bounded (not TEXT) and shorter than the value.  The
C++ cast of a negative dimension to size_t yields a huge bound, hence the
explicit 0 ≤ dimension guard. -/
def cast_string (d : Datum) (new_ti : SQLTypeInfo) : SQLTypeInfo × Datum :=
  if new_ti.type ≠ kTEXT ∧ 0 ≤ new_ti.dimension ∧
      new_ti.dimension.toNat < d.stringval.length then
    (new_ti, {d with stringval := d.stringval.take new_ti.dimension.toNat})
  else (new_ti, d)

/-- Modelled from the spec: StringToDatum is an engine-wide literal-parsing
helper external to the analyzer (spec sections 1 and 6).  Its parsing
behavior is outside this embedding and no claim below depends on its value;
this model returns a default Datum. -/
def StringToDatum (s : String) (ti : SQLTypeInfo) : Datum := {}

/-- Modelled from the spec: DatumToString is an engine-wide rendering helper
external to the analyzer (spec section 6).  Its output is outside this
embedding and no claim below depends on its value. -/
def DatumToString (d : Datum) (ti : SQLTypeInfo) : String := ""

/-- Constant::cast_from_string (Analyzer.cpp lines 695-701). -/
def cast_from_string (d : Datum) (new_ti : SQLTypeInfo) :
    SQLTypeInfo × Datum :=
  (new_ti, StringToDatum d.stringval new_ti)

/-- Constant::cast_to_string (Analyzer.cpp lines 703-712): render, then
truncate if the target string type is bounded. -/
def cast_to_string (ti : SQLTypeInfo) (d : Datum) (str_ti : SQLTypeInfo) :
    SQLTypeInfo × Datum :=
  let s := DatumToString d ti
  if str_ti.type ≠ kTEXT ∧ 0 ≤ str_ti.dimension ∧
      str_ti.dimension.toNat < s.length then
    (str_ti, {d with stringval := s.take str_ti.dimension.toNat})
  else (str_ti, {d with stringval := s})

/-- Constant::do_cast (Analyzer.cpp lines 714-728): dispatch on the source
and target families; identical types are a no-op. -/
def do_cast (ti : SQLTypeInfo) (d : Datum) (new_ti : SQLTypeInfo) :
    Except AnalyzerError (SQLTypeInfo × Datum) :=
  if ti = new_ti then .ok (ti, d)
  else if new_ti.is_number ∧
      (ti.is_number ∨ ti.type = kTIMESTAMP ∨ ti.type = kBOOLEAN) then
    cast_number ti d new_ti
  else if new_ti.is_string ∧ ti.is_string then .ok (cast_string d new_ti)
  else if ti.is_string then .ok (cast_from_string d new_ti)
  else if new_ti.is_string then .ok (cast_to_string ti d new_ti)
  else .error .invalidCast

/-- Constant::set_null_value (Analyzer.cpp lines 730-776): write the
kind-specific null sentinel into the Datum (64-bit time_t branch). -/
def set_null_value (ti : SQLTypeInfo) (d : Datum) : Datum :=
  match ti.type with
  | kBOOLEAN => {d with boolval := NULL_BOOLEAN}
  | kINT => {d with intval := NULL_INT}
  | kSMALLINT => {d with smallintval := NULL_SMALLINT}
  | kBIGINT | kNUMERIC | kDECIMAL => {d with bigintval := NULL_BIGINT}
  | kTIME | kTIMESTAMP | kDATE => {d with timeval := NULL_BIGINT}
  | kVARCHAR | kCHAR | kTEXT => {d with stringval := ""}
  | kFLOAT => {d with floatval := NULL_FLOAT}
  | kDOUBLE => {d with doubleval := NULL_DOUBLE}
  | kNULLT => {d with bigintval := 0}

/-- Modelled from the spec: the Var::which_row enum (spec section 3). -/
inductive WhichRow where
  | kINPUT_INNER
  | kINPUT_OUTER
  | kOUTPUT
  | kGROUPBY
deriving DecidableEq, Repr

/-- Modelled from the spec: the aggregate-kind enum (spec section 3). -/
inductive SQLAgg where
  | kAVG
  | kMIN
  | kMAX
  | kSUM
  | kCOUNT
deriving DecidableEq, Repr

/-- The expression node family of Analyzer.h/Analyzer.cpp as a closed sum
(spec section 3 lists the variants and their essential fields).  `var` is the
Var subclass of ColumnVar; the C++ runtime type identity used by the source
(typeid, dynamic_cast) corresponds to the constructor tag.  Constant's
contains_agg is always false in the source and is not stored. -/
inductive Expr where
  | columnVar (ti : SQLTypeInfo) (table_id column_id rte_idx : Int)
  | var (ti : SQLTypeInfo) (table_id column_id rte_idx : Int)
      (which_row : WhichRow) (varno : Int)
  | constant (ti : SQLTypeInfo) (is_null : Bool) (constval : Datum)
  | uoper (ti : SQLTypeInfo) (contains_agg : Bool) (optype : SQLOps)
      (operand : Expr)
  | binOper (ti : SQLTypeInfo) (contains_agg : Bool) (optype : SQLOps)
      (qualifier : SQLQualifier) (left_operand right_operand : Expr)
  | subquery (ti : SQLTypeInfo)
  | inValues (ti : SQLTypeInfo) (arg : Expr) (value_list : List Expr)
  | charLengthExpr (ti : SQLTypeInfo) (arg : Expr)
      (calc_encoded_length : Bool)
  | likeExpr (ti : SQLTypeInfo) (arg like_expr : Expr)
      (escape_expr : Option Expr) (is_ilike is_simple : Bool)
  | aggExpr (ti : SQLTypeInfo) (aggtype : SQLAgg) (arg : Option Expr)
      (is_distinct : Bool)
  | caseExpr (ti : SQLTypeInfo) (contains_agg : Bool)
      (expr_pair_list : List (Expr × Expr)) (else_expr : Option Expr)
  | extractExpr (ti : SQLTypeInfo) (contains_agg : Bool) (field : Int)
      (from_expr : Expr)
  | datetruncExpr (ti : SQLTypeInfo) (contains_agg : Bool) (field : Int)
      (from_expr : Expr)
deriving Repr

/-- Expr::get_type_info: the resolved SQL type of a node. -/
def Expr.type_info : Expr → SQLTypeInfo
  | .columnVar ti _ _ _ => ti
  | .var ti _ _ _ _ _ => ti
  | .constant ti _ _ => ti
  | .uoper ti _ _ _ => ti
  | .binOper ti _ _ _ _ _ => ti
  | .subquery ti => ti
  | .inValues ti _ _ => ti
  | .charLengthExpr ti _ _ => ti
  | .likeExpr ti _ _ _ _ _ => ti
  | .aggExpr ti _ _ _ => ti
  | .caseExpr ti _ _ _ => ti
  | .extractExpr ti _ _ _ => ti
  | .datetruncExpr ti _ _ _ => ti

mutual

/-- Expr::get_contains_agg.  For the variants whose constructor stores the
flag it is read directly; the construction of the remaining variants is in
Analyzer.h, so their value is modelled from the spec invariant (section 3):
contains_agg of a non-Agg node is the disjunction over its children, an
AggExpr has true, and leaves have false. -/
def Expr.get_contains_agg : Expr → Bool
  | .columnVar _ _ _ _ => false
  | .var _ _ _ _ _ _ => false
  | .constant _ _ _ => false
  | .subquery _ => false
  | .uoper _ ca _ _ => ca
  | .binOper _ ca _ _ _ _ => ca
  | .caseExpr _ ca _ _ => ca
  | .extractExpr _ ca _ _ => ca
  | .datetruncExpr _ ca _ _ => ca
  | .aggExpr _ _ _ _ => true
  | .inValues _ a vs => a.get_contains_agg || containsAggList vs
  | .charLengthExpr _ a _ => a.get_contains_agg
  | .likeExpr _ a l esc _ _ =>
    a.get_contains_agg || l.get_contains_agg || containsAggOpt esc

/-- Disjunction of get_contains_agg over a list of children. -/
def containsAggList : List Expr → Bool
  | [] => false
  | x :: xs => x.get_contains_agg || containsAggList xs

/-- get_contains_agg of an optional child. -/
def containsAggOpt : Option Expr → Bool
  | none => false
  | some x => x.get_contains_agg

end

mutual

/-- The deep_copy family (Analyzer.cpp lines 43-109): clone the subtree.
Subquery::deep_copy is CHECK(false) (unsupported), rendered as none.  For
InValues, CharLengthExpr and LikeExpr the copy's type_info is recomputed by
the constructor from the copied children and therefore equals the original's.
In this value-level model a clone is the value itself; the heap-level model
of the duplicated string payload of Constant::deep_copy is ConstantH below. -/
def deep_copy : Expr → Option Expr
  | .columnVar ti t c r => some (.columnVar ti t c r)
  | .var ti t c r w v => some (.var ti t c r w v)
  | .constant ti n d => some (.constant ti n d)
  | .uoper ti ca op x => do pure (.uoper ti ca op (← deep_copy x))
  | .binOper ti ca op q l r => do
    pure (.binOper ti ca op q (← deep_copy l) (← deep_copy r))
  | .subquery _ => none
  | .inValues ti a vs => do
    pure (.inValues ti (← deep_copy a) (← deepCopyList vs))
  | .charLengthExpr ti a ce => do
    pure (.charLengthExpr ti (← deep_copy a) ce)
  | .likeExpr ti a l esc il is => do
    pure (.likeExpr ti (← deep_copy a) (← deep_copy l) (← deepCopyOpt esc)
      il is)
  | .aggExpr ti ag arg dis => do
    pure (.aggExpr ti ag (← deepCopyOpt arg) dis)
  | .caseExpr ti ca ps els => do
    pure (.caseExpr ti ca (← deepCopyPairs ps) (← deepCopyOpt els))
  | .extractExpr ti ca f x => do pure (.extractExpr ti ca f (← deep_copy x))
  | .datetruncExpr ti ca f x => do
    pure (.datetruncExpr ti ca f (← deep_copy x))

/-- deep_copy of each element of a value list. -/
def deepCopyList : List Expr → Option (List Expr)
  | [] => some []
  | x :: xs => do pure ((← deep_copy x) :: (← deepCopyList xs))

/-- deep_copy of each component of a CASE pair list. -/
def deepCopyPairs : List (Expr × Expr) → Option (List (Expr × Expr))
  | [] => some []
  | (a, b) :: xs => do
    pure (((← deep_copy a), (← deep_copy b)) :: (← deepCopyPairs xs))

/-- deep_copy of an optional child (nullptr stays nullptr). -/
def deepCopyOpt : Option Expr → Option (Option Expr)
  | none => some none
  | some x => do pure (some (← deep_copy x))

end

/-- Datum_equal (Analyzer.cpp lines 1246-1274): compare the Datum member
selected by the type kind.  The switch has no case for kDATE or kNULLT, so
those kinds hit CHECK(false), rendered as none. -/
def Datum_equal (ti : SQLTypeInfo) (v1 v2 : Datum) : Option Bool :=
  match ti.type with
  | kBOOLEAN => some (v1.boolval = v2.boolval)
  | kCHAR | kVARCHAR | kTEXT => some (v1.stringval = v2.stringval)
  | kNUMERIC | kDECIMAL | kBIGINT => some (v1.bigintval = v2.bigintval)
  | kINT => some (v1.intval = v2.intval)
  | kSMALLINT => some (v1.smallintval = v2.smallintval)
  | kFLOAT => some (v1.floatval = v2.floatval)
  | kDOUBLE => some (v1.doubleval = v2.doubleval)
  | kTIME | kTIMESTAMP => some (v1.timeval = v2.timeval)
  | _ => none

mutual

/-- The operator== family (Analyzer.cpp lines 1230-1382): structural equality
with runtime-type dispatch.  A mismatched constructor tag is false, matching
the typeid checks.  ColumnVar/Var share one implementation: with rte_idx ≠ -1
it compares (table_id, column_id, rte_idx); with rte_idx = -1 both sides must
be Var and it compares (which_row, varno).  Subquery has no operator== in the
translation unit; comparing a Subquery on the left is modelled as none
(spec: operations on the placeholder are unsupported).  The C++ pointer
shortcuts (same shared escape/arg object) are subsumed by value comparison.
Constant comparison can hit the CHECK in Datum_equal, hence Option Bool. -/
def exprEq : Expr → Expr → Option Bool
  | .columnVar _ t c r, .columnVar _ t2 c2 r2 =>
    if r ≠ -1 then some (decide (t = t2 ∧ c = c2 ∧ r = r2)) else some false
  | .columnVar _ t c r, .var _ t2 c2 r2 _ _ =>
    if r ≠ -1 then some (decide (t = t2 ∧ c = c2 ∧ r = r2)) else some false
  | .columnVar _ _ _ _, _ => some false
  | .var _ t c r _ _, .columnVar _ t2 c2 r2 =>
    if r ≠ -1 then some (decide (t = t2 ∧ c = c2 ∧ r = r2)) else some false
  | .var _ t c r w v, .var _ t2 c2 r2 w2 v2 =>
    if r ≠ -1 then some (decide (t = t2 ∧ c = c2 ∧ r = r2))
    else some (decide (w = w2 ∧ v = v2))
  | .var _ _ _ _ _ _, _ => some false
  | .constant ti n d, .constant ti2 n2 d2 =>
    if ti ≠ ti2 ∨ n ≠ n2 then some false else Datum_equal ti d d2
  | .constant _ _ _, _ => some false
  | .uoper _ _ op x, .uoper _ _ op2 x2 =>
    if op ≠ op2 then some false else exprEq x x2
  | .uoper _ _ _ _, _ => some false
  | .binOper _ _ op _ l r, .binOper _ _ op2 _ l2 r2 =>
    if op ≠ op2 then some false
    else do
      let bl ← exprEq l l2
      if ¬bl then pure false else exprEq r r2
  | .binOper _ _ _ _ _ _, _ => some false
  | .subquery _, _ => none
  | .inValues _ a vs, .inValues _ a2 vs2 => do
    let b ← exprEq a a2
    if ¬b then pure false
    else if vs.length ≠ vs2.length then pure false
    else exprEqList vs vs2
  | .inValues _ _ _, _ => some false
  | .charLengthExpr _ a ce, .charLengthExpr _ a2 ce2 => do
    let b ← exprEq a a2
    if ¬b ∨ ce ≠ ce2 then pure false else pure true
  | .charLengthExpr _ _ _, _ => some false
  | .likeExpr _ a l esc il _, .likeExpr _ a2 l2 esc2 il2 _ => do
    let ba ← exprEq a a2
    if ¬ba then pure false
    else do
      let bl ← exprEq l l2
      if ¬bl ∨ il ≠ il2 then pure false
      else
        match esc, esc2 with
        | none, none => pure true
        | some x, some y => exprEq x y
        | _, _ => pure false
  | .likeExpr _ _ _ _ _ _, _ => some false
  | .aggExpr _ ag arg dis, .aggExpr _ ag2 arg2 dis2 =>
    if ag ≠ ag2 ∨ dis ≠ dis2 then some false
    else
      match arg, arg2 with
      | none, none => some true
      | some x, some y => exprEq x y
      | _, _ => some false
  | .aggExpr _ _ _ _, _ => some false
  | .caseExpr _ _ ps els, .caseExpr _ _ ps2 els2 =>
    if ps.length ≠ ps2.length then some false
    else if (els.isNone ∧ els2.isSome) ∨ (els.isSome ∧ els2.isNone) then
      some false
    else do
      let b ← exprEqPairs ps ps2
      if ¬b then pure false
      else
        match els, els2 with
        | none, _ => pure true
        | some x, some y => exprEq x y
        | some _, none => pure false
  | .caseExpr _ _ _ _, _ => some false
  | .extractExpr _ _ f x, .extractExpr _ _ f2 x2 =>
    if f ≠ f2 then some false else exprEq x x2
  | .extractExpr _ _ _ _, _ => some false
  | .datetruncExpr _ _ f x, .datetruncExpr _ _ f2 x2 =>
    if f ≠ f2 then some false else exprEq x x2
  | .datetruncExpr _ _ _ _, _ => some false

/-- Element-wise operator== over the value lists of two InValues (the caller
has already compared the lengths). -/
def exprEqList : List Expr → List Expr → Option Bool
  | [], [] => some true
  | x :: xs, y :: ys => do
    let b ← exprEq x y
    if ¬b then pure false else exprEqList xs ys
  | _, _ => some false

/-- Pair-wise operator== over the CASE pair lists (first component, then
second, short-circuiting like the source loop). -/
def exprEqPairs : List (Expr × Expr) → List (Expr × Expr) → Option Bool
  | [], [] => some true
  | (a, b) :: xs, (a2, b2) :: ys => do
    let b1 ← exprEq a a2
    if ¬b1 then pure false
    else do
      let b2' ← exprEq b b2
      if ¬b2' then pure false else exprEqPairs xs ys
  | _, _ => some false

end

mutual

/-- The collect_rte_idx family: the set of rte_idx values of reachable
ColumnVar leaves (std::set<int> insertion is set union).  The CaseExpr,
ExtractExpr and DatetruncExpr cases are Analyzer.cpp lines 1690-1705; the
remaining variants are defined inline in Analyzer.h (not in the sources) and
are modelled from the spec (section 4.4: the transitive union of rte_idx
values over reachable ColumnVar leaves; a Subquery placeholder has no
reachable leaves of this tree). -/
def collect_rte_idx : Expr → Finset Int
  | .columnVar _ _ _ r => {r}
  | .var _ _ _ r _ _ => {r}
  | .constant _ _ _ => ∅
  | .uoper _ _ _ x => collect_rte_idx x
  | .binOper _ _ _ _ l r => collect_rte_idx l ∪ collect_rte_idx r
  | .subquery _ => ∅
  | .inValues _ a vs => collect_rte_idx a ∪ collectRteList vs
  | .charLengthExpr _ a _ => collect_rte_idx a
  | .likeExpr _ a l esc _ _ =>
    collect_rte_idx a ∪ collect_rte_idx l ∪ collectRteOpt esc
  | .aggExpr _ _ arg _ => collectRteOpt arg
  | .caseExpr _ _ ps els => collectRtePairs ps ∪ collectRteOpt els
  | .extractExpr _ _ _ x => collect_rte_idx x
  | .datetruncExpr _ _ _ x => collect_rte_idx x

/-- Union of collect_rte_idx over a list of children. -/
def collectRteList : List Expr → Finset Int
  | [] => ∅
  | x :: xs => collect_rte_idx x ∪ collectRteList xs

/-- Union of collect_rte_idx over both components of each CASE pair. -/
def collectRtePairs : List (Expr × Expr) → Finset Int
  | [] => ∅
  | (a, b) :: xs => collect_rte_idx a ∪ collect_rte_idx b ∪ collectRtePairs xs

/-- collect_rte_idx of an optional child. -/
def collectRteOpt : Option Expr → Finset Int
  | none => ∅
  | some x => collect_rte_idx x

end

/-- Append-3: the effect of the source pattern `if (set.size() > 1)
join_predicates.push_back(this); else if (set.size() == 1)
scan_predicates.push_back(this); else const_predicates.push_back(this);`. -/
def push3 (e : Expr) (s : Finset Int) :
    List Expr × List Expr × List Expr :=
  if 1 < s.card then ([], [e], [])
  else if s.card = 1 then ([e], [], [])
  else ([], [], [e])

/-- The group_predicates family (Analyzer.cpp lines 924-1057): a BinOper with
optype AND recurses into both children without appending itself; every other
node collects a set of rte indices from the children named at its own case in
the source (only the primary argument for InValues, LikeExpr and AggExpr) and
appends itself to join/scan/const by the size of that set.  A bare ColumnVar
(and its Var subclass, which inherits the implementation) is appended to scan
only when its type is BOOLEAN and to no list otherwise (lines 924-929).
Constant::group_predicates is defined in Analyzer.h and is modelled from the
spec (section 4.4: zero referenced indices → const); Subquery is modelled
from the spec as unsupported (appends nothing).  An AggExpr with a null arg
dereferences the null pointer in the source (undefined behavior); it is
modelled as appending nothing and excluded by the hypotheses below. -/
def group_predicates : Expr → List Expr × List Expr × List Expr
  | e@(.binOper _ _ op _ l r) =>
    if op = kAND then
      let (s1, j1, c1) := group_predicates l
      let (s2, j2, c2) := group_predicates r
      (s1 ++ s2, j1 ++ j2, c1 ++ c2)
    else push3 e (collect_rte_idx l ∪ collect_rte_idx r)
  | e@(.columnVar ti _ _ _) =>
    if ti.type = kBOOLEAN then ([e], [], []) else ([], [], [])
  | e@(.var ti _ _ _ _ _) =>
    if ti.type = kBOOLEAN then ([e], [], []) else ([], [], [])
  | e@(.constant _ _ _) => ([], [], [e])
  | .subquery _ => ([], [], [])
  | e@(.uoper _ _ _ x) => push3 e (collect_rte_idx x)
  | e@(.inValues _ a _) => push3 e (collect_rte_idx a)
  | e@(.charLengthExpr _ a _) => push3 e (collect_rte_idx a)
  | e@(.likeExpr _ a _ _ _ _) => push3 e (collect_rte_idx a)
  | e@(.aggExpr _ _ (some a) _) => push3 e (collect_rte_idx a)
  | .aggExpr _ _ none _ => ([], [], [])
  | e@(.caseExpr _ _ ps els) =>
    push3 e (collectRtePairs ps ∪ collectRteOpt els)
  | e@(.extractExpr _ _ _ x) => push3 e (collect_rte_idx x)
  | e@(.datetruncExpr _ _ _ x) => push3 e (collect_rte_idx x)

/-- The conjuncts produced by flattening top-level AND nodes, in the
left-to-right order in which group_predicates visits them. -/
def flatten_conjuncts : Expr → List Expr
  | .binOper ti ca op q l r =>
    if op = kAND then flatten_conjuncts l ++ flatten_conjuncts r
    else [.binOper ti ca op q l r]
  | e => [e]

/-- The three predicate classes of spec section 4.4. -/
inductive PredClass where
  | scanP
  | joinP
  | constP
deriving DecidableEq, Repr

/-- Classification by the size of a collected rte set (more than one → join,
exactly one → scan, zero → const). -/
def classOfCard (n : Nat) : PredClass :=
  if 1 < n then .joinP else if n = 1 then .scanP else .constP

/-- The class to which group_predicates appends a non-AND node, or none for
the nodes it never appends (a top-level AND, a bare non-BOOLEAN ColumnVar or
Var, a Subquery, an AggExpr with no argument).  The set inspected per variant
is exactly the one group_predicates collects. -/
def classify : Expr → Option PredClass
  | .binOper _ _ op _ l r =>
    if op = kAND then none
    else some (classOfCard (collect_rte_idx l ∪ collect_rte_idx r).card)
  | .columnVar ti _ _ _ =>
    if ti.type = kBOOLEAN then some .scanP else none
  | .var ti _ _ _ _ _ =>
    if ti.type = kBOOLEAN then some .scanP else none
  | .constant _ _ _ => some .constP
  | .subquery _ => none
  | .uoper _ _ _ x => some (classOfCard (collect_rte_idx x).card)
  | .inValues _ a _ => some (classOfCard (collect_rte_idx a).card)
  | .charLengthExpr _ a _ => some (classOfCard (collect_rte_idx a).card)
  | .likeExpr _ a _ _ _ _ => some (classOfCard (collect_rte_idx a).card)
  | .aggExpr _ _ (some a) _ => some (classOfCard (collect_rte_idx a).card)
  | .aggExpr _ _ none _ => none
  | .caseExpr _ _ ps els =>
    some (classOfCard (collectRtePairs ps ∪ collectRteOpt els).card)
  | .extractExpr _ _ _ x => some (classOfCard (collect_rte_idx x).card)
  | .datetruncExpr _ _ _ x => some (classOfCard (collect_rte_idx x).card)

/-- The three singleton lists of a conjunct of a given class. -/
def singleton3 (e : Expr) : PredClass → List Expr × List Expr × List Expr
  | .scanP => ([e], [], [])
  | .joinP => ([], [e], [])
  | .constP => ([], [], [e])

/-- The expected partition of a conjunct list: each of the three output lists
is the sublist of conjuncts of the corresponding class, in visit order. -/
def partition3 (l : List Expr) : List Expr × List Expr × List Expr :=
  (l.filter (fun c => decide (classify c = some .scanP)),
   l.filter (fun c => decide (classify c = some .joinP)),
   l.filter (fun c => decide (classify c = some .constP)))

/-- Well-formedness for the predicate-partition statement: every flattened
conjunct is one the source actually appends somewhere. -/
def wf_predicate (e : Expr) : Bool :=
  (flatten_conjuncts e).all (fun c => (classify c).isSome)

/-- Modelled from the spec: SQLTypeInfo::is_castable (spec section 4.1):
legal family transitions are number ↔ number, number ↔ boolean,
number ↔ timestamp, string ↔ string, string ↔ anything with a parseable
literal, temporal ↔ temporal.  No claim below depends on its exact
refinement: every theorem path either short-circuits before the check or
stays within one family. -/
def SQLTypeInfo.is_castable (f t : SQLTypeInfo) : Bool :=
  if f = t then true
  else if f.is_number ∧ t.is_number then true
  else if (f.is_number ∧ t.type = kBOOLEAN) ∨
      (f.type = kBOOLEAN ∧ t.is_number) then true
  else if (f.is_number ∧ t.type = kTIMESTAMP) ∨
      (f.type = kTIMESTAMP ∧ t.is_number) then true
  else if f.is_string ∨ t.is_string then true
  else if f.is_time ∧ t.is_time then true
  else false

/-- Expr::add_cast (Analyzer.cpp lines 428-450), the generic base-class path:
no-op on an identical type or on two same-or-transient-related DICT string
types; UncastableTypes outside is_castable; the temporary restriction
rejecting a transient DICT target on a non-literal (isConst is the source's
typeid(*this) == typeid(Constant) test); otherwise wrap in a CAST UOper
carrying the node's contains_agg. -/
def expr_add_cast_generic (isConst : Bool) (self : Expr) (ti : SQLTypeInfo)
    (ca : Bool) (new_ti : SQLTypeInfo) : Except AnalyzerError Expr :=
  if new_ti = ti then .ok self
  else if new_ti.is_string ∧ ti.is_string ∧
      new_ti.compression = kENCODING_DICT ∧
      ti.compression = kENCODING_DICT ∧
      (new_ti.comp_param = ti.comp_param ∨
        new_ti.comp_param = TRANSIENT_DICT ti.comp_param) then
    .ok self
  else if ¬ti.is_castable new_ti then .error .uncastableTypes
  else if ¬isConst ∧ new_ti.is_string ∧
      new_ti.compression = kENCODING_DICT ∧
      new_ti.comp_param ≤ TRANSIENT_DICT_ID then
    if ti.is_string ∧ ti.compression ≠ kENCODING_DICT then
      .error .groupByRequiresDictEncoding
    else .error .transientEncodingOnNonLiteral
  else .ok (.uoper new_ti ca kCAST self)

mutual

/-- The add_cast family (Analyzer.cpp lines 428-450 and 778-833), with the
overrides dispatched on the constructor tag.
Constant::add_cast (778-794): a null literal adopts the new type and resets
its payload to the null sentinel; when only the compression differs the value
cast is performed against the compression-stripped type and the generic path
then adds the wrapper; otherwise do_cast in place.
UOper::add_cast (796-811): the string-to-dict collapse returns the inner
operand (the pure result; uoper_add_cast_state below also tracks the
receiver's nulled operand field).
CaseExpr::add_cast (813-827): rewrite a transient target id when applicable,
push the cast into every `then` and the `else`, adopt the type.
Subquery::add_cast (829-833) is CHECK(false). -/
def add_cast : Expr → SQLTypeInfo → Except AnalyzerError Expr
  | .constant ti n d, new_ti =>
    if n then .ok (.constant new_ti true (set_null_value new_ti d))
    else if new_ti.compression ≠ ti.compression then
      if new_ti.compression ≠ kENCODING_NONE then do
        let (ti2, d2) ← do_cast ti d
          {new_ti with compression := kENCODING_NONE}
        expr_add_cast_generic true (.constant ti2 n d2) ti2 false new_ti
      else expr_add_cast_generic true (.constant ti n d) ti false new_ti
    else do
      let (ti2, d2) ← do_cast ti d new_ti
      .ok (.constant ti2 n d2)
  | e@(.uoper ti ca op x), new_ti =>
    if op ≠ kCAST then expr_add_cast_generic false e ti ca new_ti
    else if ti.is_string ∧ new_ti.is_string ∧
        new_ti.compression = kENCODING_DICT ∧
        ti.compression = kENCODING_NONE ∧
        x.type_info.is_string ∧
        x.type_info.compression = kENCODING_DICT ∧
        (x.type_info.comp_param = new_ti.comp_param ∨
          x.type_info.comp_param = TRANSIENT_DICT new_ti.comp_param) then
      .ok x
    else expr_add_cast_generic false e ti ca new_ti
  | .caseExpr ti ca ps els, new_ti => do
    let ti2 :=
      if new_ti.is_string ∧ new_ti.compression = kENCODING_DICT ∧
          new_ti.comp_param = TRANSIENT_DICT_ID ∧ ti.is_string ∧
          ti.compression = kENCODING_NONE ∧
          ti.comp_param > TRANSIENT_DICT_ID then
        {new_ti with comp_param := TRANSIENT_DICT ti.comp_param}
      else new_ti
    let ps2 ← addCastPairsSnd ps ti2
    let els2 ← addCastOpt els ti2
    .ok (.caseExpr ti2 ca ps2 els2)
  | .subquery _, _ => .error .unsupportedSubqueryOp
  | e, new_ti =>
    expr_add_cast_generic false e e.type_info e.get_contains_agg new_ti

/-- add_cast pushed into the second component of each CASE pair (the `then`
branches); the `when` branches are untouched. -/
def addCastPairsSnd (ps : List (Expr × Expr)) (ti2 : SQLTypeInfo) :
    Except AnalyzerError (List (Expr × Expr)) :=
  match ps with
  | [] => .ok []
  | (a, b) :: xs => do
    let b2 ← add_cast b ti2
    let rest ← addCastPairsSnd xs ti2
    .ok ((a, b2) :: rest)

/-- add_cast on the optional else branch. -/
def addCastOpt (els : Option Expr) (ti2 : SQLTypeInfo) :
    Except AnalyzerError (Option Expr) :=
  match els with
  | none => .ok none
  | some x => do
    let x2 ← add_cast x ti2
    .ok (some x2)

end

/-- BinOper::normalize_simple_predicate (Analyzer.cpp lines 903-922), over
the fields of the receiving BinOper.  The Int component is the rte_idx
out-parameter, initialized to -1.  The typeid tests are exact: a Var operand
(subclass of ColumnVar) does not match. -/
def normalize_simple_predicate (ti : SQLTypeInfo) (ca : Bool) (op : SQLOps)
    (q : SQLQualifier) (l r : Expr) : Option Expr × Int :=
  if ¬IS_COMPARISON op ∨ q ≠ kONE then (none, -1)
  else
    match l, r with
    | .columnVar _ _ _ rte, .constant _ _ _ =>
      (deep_copy (.binOper ti ca op q l r), rte)
    | .constant _ _ _, .columnVar _ _ _ rte =>
      ((do
        let rc ← deep_copy r
        let lc ← deep_copy l
        pure (Expr.binOper ti ca (COMMUTE_COMPARISON op) q rc lc)), rte)
    | _, _ => (none, -1)

/-- The observable state of a UOper node: its fields, with the operand as an
optional child so that the in-place `operand = nullptr` of the collapse
branch of UOper::add_cast is expressible. -/
structure UOperNode where
  type_info : SQLTypeInfo
  contains_agg : Bool
  optype : SQLOps
  operand : Option Expr
deriving Repr

/-- UOper::add_cast (Analyzer.cpp lines 796-811) with the receiver's
post-call state: the returned expression together with the UOperNode the
receiver has become.  In the string-to-dict collapse branch the source does
`auto result = operand; operand = nullptr; return result;`, so the receiver
keeps every field except its operand, which becomes null. -/
def uoper_add_cast_state (ti : SQLTypeInfo) (ca : Bool) (ot : SQLOps)
    (x : Expr) (new_ti : SQLTypeInfo) :
    Except AnalyzerError (Expr × UOperNode) :=
  if ot ≠ kCAST then
    (expr_add_cast_generic false (.uoper ti ca ot x) ti ca new_ti).map
      (fun res => (res, ⟨ti, ca, ot, some x⟩))
  else if ti.is_string ∧ new_ti.is_string ∧
      new_ti.compression = kENCODING_DICT ∧
      ti.compression = kENCODING_NONE ∧
      x.type_info.is_string ∧
      x.type_info.compression = kENCODING_DICT ∧
      (x.type_info.comp_param = new_ti.comp_param ∨
        x.type_info.comp_param = TRANSIENT_DICT new_ti.comp_param) then
    .ok (x, ⟨ti, ca, ot, none⟩)
  else
    (expr_add_cast_generic false (.uoper ti ca ot x) ti ca new_ti).map
      (fun res => (res, ⟨ti, ca, ot, some x⟩))

/-- Heap-level model of a string Constant for the payload-aliasing half of
the deep-copy claim: the Datum's stringval member is a pointer, modelled as
an index into a store of strings. -/
structure ConstantH where
  ti : SQLTypeInfo
  is_null : Bool
  addr : Nat
deriving Repr

/-- Constant::deep_copy (Analyzer.cpp lines 51-57) at the heap level:
`d = constval; if (string ∧ ¬null) d.stringval = new std::string(*...)`
allocates a fresh cell holding a copy of the pointed-to string; otherwise the
Datum (and any pointer in it) is copied bitwise. -/
def constant_deep_copy_h (c : ConstantH) (store : List String) :
    ConstantH × List String :=
  if c.ti.is_string ∧ ¬c.is_null then
    (⟨c.ti, c.is_null, store.length⟩, store ++ [store.getD c.addr ""])
  else (c, store)

mutual

/-- Well-formedness for the deep-copy/equality claim: no Subquery (its
deep_copy aborts), every bare ColumnVar has a real rte_idx (ColumnVar
operator== at rte_idx = -1 requires both sides to be Var and is otherwise
false, lines 1230-1244), and every Constant's type kind is in the domain of
Datum_equal (kDATE and kNULLT hit CHECK(false), lines 1246-1274). -/
def wf_eq : Expr → Bool
  | .columnVar _ _ _ r => r ≠ -1
  | .var _ _ _ _ _ _ => true
  | .constant ti _ _ => ti.type ≠ kDATE ∧ ti.type ≠ kNULLT
  | .uoper _ _ _ x => wf_eq x
  | .binOper _ _ _ _ l r => wf_eq l && wf_eq r
  | .subquery _ => false
  | .inValues _ a vs => wf_eq a && wfEqList vs
  | .charLengthExpr _ a _ => wf_eq a
  | .likeExpr _ a l esc _ _ => wf_eq a && wf_eq l && wfEqOpt esc
  | .aggExpr _ _ arg _ => wfEqOpt arg
  | .caseExpr _ _ ps els => wfEqPairs ps && wfEqOpt els
  | .extractExpr _ _ _ x => wf_eq x
  | .datetruncExpr _ _ _ x => wf_eq x

/-- wf_eq over a list of children. -/
def wfEqList : List Expr → Bool
  | [] => true
  | x :: xs => wf_eq x && wfEqList xs

/-- wf_eq over a CASE pair list. -/
def wfEqPairs : List (Expr × Expr) → Bool
  | [] => true
  | (a, b) :: xs => wf_eq a && wf_eq b && wfEqPairs xs

/-- wf_eq over an optional child. -/
def wfEqOpt : Option Expr → Bool
  | none => true
  | some x => wf_eq x

end

mutual

/-- Well-formedness for the cast-idempotence claim, the data-model invariants
of spec section 3 that the claim needs: no Subquery (its add_cast aborts),
every null Constant already holds its sentinel payload (add_cast rewrites the
payload through set_null_value), and every branch of a CaseExpr carries the
CaseExpr's own type (CaseExpr::add_cast pushes the cast into the branches
unconditionally). -/
def wf_cast : Expr → Bool
  | .constant ti n d => !n || decide (d = set_null_value ti d)
  | .caseExpr ti _ ps els => wfCastPairs ps ti && wfCastOpt els ti
  | .subquery _ => false
  | _ => true

/-- wf_cast over a CASE pair list against the CaseExpr's type. -/
def wfCastPairs : List (Expr × Expr) → SQLTypeInfo → Bool
  | [], _ => true
  | p :: rest, ti =>
    decide (p.2.type_info = ti) && wf_cast p.2 && wfCastPairs rest ti

/-- wf_cast of the optional else branch against the CaseExpr's type. -/
def wfCastOpt : Option Expr → SQLTypeInfo → Bool
  | none, _ => true
  | some x, ti => decide (x.type_info = ti) && wf_cast x

end

/-- DECIMAL(25, 3), the decimal side of the promotion-asymmetry input. -/
def c1_decimal : SQLTypeInfo := tinfo4 kDECIMAL 25 3 false

/-- INT with default (zero) dimension, as built by SQLTypeInfo(kINT, n). -/
def c1_int : SQLTypeInfo := tinfo2 kINT false

/-- VARCHAR(10, DICT, cp=3), left input of the string-negotiation claim. -/
def c2_t1 : SQLTypeInfo := tinfo7 kVARCHAR 10 0 false kENCODING_DICT 3 kNULLT

/-- VARCHAR(20, DICT, cp=5), right input of the string-negotiation claim. -/
def c2_t2 : SQLTypeInfo := tinfo7 kVARCHAR 20 0 false kENCODING_DICT 5 kNULLT

/-- VARCHAR(5), the target type of the constant-truncation claim. -/
def c4_ti : SQLTypeInfo := tinfo4 kVARCHAR 5 0 false

/-- VARCHAR(20), a source type strictly different from the VARCHAR(5)
target, so that do_cast does not short-circuit. -/
def c4_src : SQLTypeInfo := tinfo4 kVARCHAR 20 0 false

/-- Datum holding the string literal of the truncation scenario. -/
def c4_d : Datum := {stringval := "hello world"}

/-- The BOOLEAN result type of a comparison after the final
set_notnull(left && right) of analyze_type_info. -/
def bool_result (n : Bool) : SQLTypeInfo :=
  ⟨kBOOLEAN, kNULLT, 0, 0, n, kENCODING_NONE, 0⟩

/-- TIMESTAMP(0), an operand of the temporal-coercion scenario. -/
def c3_ts0 : SQLTypeInfo := tinfo4 kTIMESTAMP 0 0 false

/-- DATE, an operand of the temporal-coercion scenario. -/
def c3_date : SQLTypeInfo := tinfo2 kDATE false

/-- TIME, an operand of the failing temporal pairing. -/
def c3_time : SQLTypeInfo := tinfo2 kTIME false

/-- Exact runtime-type test typeid(*e) == typeid(ColumnVar): true only for
the base-class tag, not for the Var subclass. -/
def isColumnVarTag : Expr → Bool
  | .columnVar _ _ _ _ => true
  | _ => false

/-- Exact runtime-type test typeid(*e) == typeid(Constant). -/
def isConstantTag : Expr → Bool
  | .constant _ _ _ => true
  | _ => false

/-- The NONE-encoded VARCHAR type of the collapse-witness cast node. -/
def c10_none_ti : SQLTypeInfo :=
  tinfo7 kVARCHAR 10 0 false kENCODING_NONE 0 kNULLT

/-- The DICT-encoded VARCHAR type (dictionary 7) of the collapse witness. -/
def c10_dict_ti : SQLTypeInfo :=
  tinfo7 kVARCHAR 10 0 false kENCODING_DICT 7 kNULLT

/-- Constant('hello', VARCHAR(5)) at heap address 0, for the aliasing
witness. -/
def c5_ch : ConstantH := ⟨tinfo4 kVARCHAR 5 0 false, false, 0⟩

/-- A free-standing plain ColumnVar (rte_idx = -1 but not a Var), the
counterexample input. -/
def c5_cv : Expr := .columnVar (tinfo2 kINT false) 1 1 (-1)

/-- A non-null INT constant, the deep-copy witness input. -/
def c5_const : Expr := .constant (tinfo2 kINT false) false {intval := 5}

/-- BOOLEAN type for predicate nodes in the classification scenario. -/
def c6_bool : SQLTypeInfo := tinfo2 kBOOLEAN false

/-- INT type for operands in the classification scenario. -/
def c6_int : SQLTypeInfo := tinfo2 kINT false

/-- Scan conjunct of scenario S5: t1.a = 3 (one rte referenced). -/
def c6_p1 : Expr :=
  .binOper c6_bool false kEQ kONE (.columnVar c6_int 1 1 0)
    (.constant c6_int false {intval := 3})

/-- Join conjunct of scenario S5: t1.b = t2.b (two rtes referenced). -/
def c6_p2 : Expr :=
  .binOper c6_bool false kEQ kONE (.columnVar c6_int 1 2 0)
    (.columnVar c6_int 2 1 1)

/-- Const conjunct of scenario S5: 5 > 1 (no rte referenced). -/
def c6_p3 : Expr :=
  .binOper c6_bool false kGT kONE (.constant c6_int false {intval := 5})
    (.constant c6_int false {intval := 1})

/-- The predicate of scenario S5: (t1.a = 3 AND t1.b = t2.b) AND (5 > 1). -/
def c6_pred : Expr :=
  .binOper c6_bool false kAND kONE
    (.binOper c6_bool false kAND kONE c6_p1 c6_p2) c6_p3

/-- A bare non-BOOLEAN ColumnVar used as a conjunct: the code appends it to
no list. -/
def c6_cv : Expr := .columnVar c6_int 1 1 0

/-- BOOLEAN constant TRUE, the `when` half of the cast-identity
counterexample. -/
def c8_when : Expr := .constant (tinfo2 kBOOLEAN false) false {boolval := 1}

/-- SMALLINT constant 5, a `then` branch whose type differs from its
CaseExpr's own INT type. -/
def c8_then : Expr :=
  .constant (tinfo2 kSMALLINT false) false {smallintval := 5}

/-- A CaseExpr of type INT whose `then` branch still has type SMALLINT. -/
def c8_case : Expr :=
  .caseExpr (tinfo2 kINT false) false [(c8_when, c8_then)] none

/-- What CaseExpr::add_cast makes of c8_case when casting to its own type:
the SMALLINT branch is converted in place to INT. -/
def c8_case_result : Expr :=
  .caseExpr (tinfo2 kINT false) false
    [(c8_when,
      .constant (tinfo2 kINT false) false {smallintval := 5, intval := 5})]
    none

/-- A plain non-null INT constant, the cast-identity witness input. -/
def c8_wit : Expr := .constant (tinfo2 kINT false) false {intval := 7}

/-- C1: common_numeric_type is claimed symmetric, and in particular
common_numeric_type(DECIMAL(d,s), INT) is claimed equal to
common_numeric_type(INT, DECIMAL(d,s)), a NUMERIC with dimension
max(min(19, 10+s), d).  The code disagrees at DECIMAL(25,3) × INT: the
(DECIMAL, INT) branch takes the INT operand's dimension (0), giving
NUMERIC(13,3), while the mirrored (INT, DECIMAL) branch takes the DECIMAL's
dimension, giving NUMERIC(25,3).  The claim and the spec state the intended
symmetric behavior; the code's use of type2 instead of type1 at line 385 is
the slip. -/
theorem C1_common_numeric_type_asymmetry :
    common_numeric_type c1_decimal c1_int = .ok (tinfo4 kNUMERIC 13 3 false) ∧
    common_numeric_type c1_int c1_decimal = .ok (tinfo4 kNUMERIC 25 3 false) ∧
    tinfo4 kNUMERIC 13 3 false ≠ tinfo4 kNUMERIC 25 3 false :=
  ⟨rfl, rfl, by decide⟩

/-- C2 counterexample: for VARCHAR(10, DICT, cp=3) and VARCHAR(20, DICT,
cp=5), whose comp_params are neither equal nor TRANSIENT_DICT-related, the
claim says the result carries comp_param 5 (the larger id); the code leaves
the local comp_param at its initial value 0. -/
theorem C2_counterexample :
    common_string_type c2_t1 c2_t2 =
      .ok (tinfo7 kVARCHAR 20 0 false kENCODING_NONE 0 kNULLT) ∧
    (0 : Int) ≠ 5 :=
  ⟨rfl, by decide⟩

/-- C2 (amended): for two DICT-encoded bounded string types, unrelated
comp_params give a VARCHAR with the max dimension, compression NONE and
comp_param 0 (not the larger id); equal or TRANSIENT_DICT-related comp_params
keep DICT with the min comp_param and the max dimension. -/
theorem C2_common_string_type_dict (t1 t2 : SQLTypeInfo)
    (h1 : t1.is_string = true) (h2 : t2.is_string = true)
    (hc1 : t1.compression = kENCODING_DICT)
    (hc2 : t2.compression = kENCODING_DICT)
    (hk1 : t1.type ≠ kTEXT) (hk2 : t2.type ≠ kTEXT) :
    ((t1.comp_param ≠ t2.comp_param ∧
        t1.comp_param ≠ TRANSIENT_DICT t2.comp_param) →
      common_string_type t1 t2 =
        .ok (tinfo7 kVARCHAR (max t1.dimension t2.dimension) 0 false
          kENCODING_NONE 0 kNULLT)) ∧
    ((t1.comp_param = t2.comp_param ∨
        t1.comp_param = TRANSIENT_DICT t2.comp_param) →
      common_string_type t1 t2 =
        .ok (tinfo7 kVARCHAR (max t1.dimension t2.dimension) 0 false
          kENCODING_DICT (min t1.comp_param t2.comp_param) kNULLT)) := by
  constructor
  · intro h
    simp [common_string_type, h1, h2, hc1, hc2, hk1, hk2, h.1, h.2]
  · intro h
    simp [common_string_type, h1, h2, hc1, hc2, hk1, hk2, h]

/-- C2 witness: the amended theorem applied to the concrete pair of the
scenario, unrelated branch (cp 3 vs 5 → NONE, comp_param 0) and the values
computed there. -/
theorem C2_common_string_type_dict_witness :
    common_string_type c2_t1 c2_t2 =
      .ok (tinfo7 kVARCHAR (max c2_t1.dimension c2_t2.dimension) 0 false
        kENCODING_NONE 0 kNULLT) :=
  (C2_common_string_type_dict c2_t1 c2_t2 rfl rfl rfl rfl (by decide)
    (by decide)).1 (by decide)

/-- C4 counterexample: Constant('hello world', VARCHAR(5)).do_cast(VARCHAR(5))
is claimed to truncate the value to 'hello'; the code returns immediately
when the target equals the current type_info, so the value stays
'hello world'. -/
theorem C4_counterexample :
    do_cast c4_ti c4_d c4_ti = .ok (c4_ti, c4_d) ∧
    c4_d.stringval ≠ "hello" :=
  ⟨rfl, by decide⟩

/-- C4 (amended): for a non-null string Constant whose value is longer than
the target dimension, do_cast to a bounded string type (CHAR or VARCHAR, not
TEXT) that differs from the constant's current type truncates the stored
value to the target's dimension characters; with its own type as target,
do_cast is a no-op (the spec's example needs a distinct source type such as
VARCHAR(20)). -/
theorem C4_do_cast_truncates (s : String) (d : Datum) (ti tgt : SQLTypeInfo)
    (hs : ti.is_string = true) (hk : tgt.type = kCHAR ∨ tgt.type = kVARCHAR)
    (hne : ti ≠ tgt) (hd0 : 0 ≤ tgt.dimension)
    (hlen : tgt.dimension.toNat < s.length) :
    do_cast ti {d with stringval := s} tgt =
      .ok (tgt, {d with stringval := s.take tgt.dimension.toNat}) := by
  have hnum : tgt.is_number = false := by
    rcases hk with h | h <;> simp [SQLTypeInfo.is_number, h]
  have hstr : tgt.is_string = true := by
    rcases hk with h | h <;> simp [SQLTypeInfo.is_string, h]
  have htext : tgt.type ≠ kTEXT := by
    rcases hk with h | h <;> simp [h]
  simp [do_cast, hne, hnum, hstr, hs, cast_string, htext, hd0, hlen]

/-- C4 witness: the amended theorem at the concrete scenario, casting the
constant 'hello world' from VARCHAR(20) to VARCHAR(5). -/
theorem C4_do_cast_truncates_witness :
    do_cast c4_src {stringval := "hello world"} c4_ti =
      .ok (c4_ti, {stringval := String.take "hello world" 5}) :=
  C4_do_cast_truncates "hello world" {} c4_src c4_ti rfl (Or.inr rfl)
    (by decide) (by decide) (by decide)

/-- C3: for every comparison operator, analyze_type on two temporal operand
types follows the matrix: TIMESTAMP vs DATE coerces both operand types to the
TIMESTAMP side's type with result BOOLEAN, in either order; TIMESTAMP vs
TIMESTAMP and TIME vs TIME coerce both operands to that kind with the max of
the two dimensions; every pairing of TIME with TIMESTAMP or DATE, in either
order, fails with the IncomparableTemporals error. -/
theorem C3_analyze_type_temporal_matrix (op : SQLOps)
    (hop : IS_COMPARISON op = true) (lt rt : SQLTypeInfo) :
    (lt.type = kTIMESTAMP → rt.type = kDATE →
      analyze_type_info op lt rt =
        .ok (bool_result (lt.notnull && rt.notnull), lt, lt)) ∧
    (lt.type = kDATE → rt.type = kTIMESTAMP →
      analyze_type_info op lt rt =
        .ok (bool_result (lt.notnull && rt.notnull), rt, rt)) ∧
    (lt.type = kTIMESTAMP → rt.type = kTIMESTAMP →
      ∃ nl nr, analyze_type_info op lt rt =
          .ok (bool_result (lt.notnull && rt.notnull), nl, nr) ∧
        nl.type = kTIMESTAMP ∧
        nl.dimension = max lt.dimension rt.dimension ∧
        nr.type = kTIMESTAMP ∧
        nr.dimension = max lt.dimension rt.dimension) ∧
    (lt.type = kTIME → rt.type = kTIME →
      ∃ nl nr, analyze_type_info op lt rt =
          .ok (bool_result (lt.notnull && rt.notnull), nl, nr) ∧
        nl.type = kTIME ∧
        nl.dimension = max lt.dimension rt.dimension ∧
        nr.type = kTIME ∧
        nr.dimension = max lt.dimension rt.dimension) ∧
    ((lt.type = kTIME ∧ rt.type = kTIMESTAMP) ∨
     (lt.type = kTIMESTAMP ∧ rt.type = kTIME) ∨
     (lt.type = kTIME ∧ rt.type = kDATE) ∨
     (lt.type = kDATE ∧ rt.type = kTIME) →
      analyze_type_info op lt rt = .error .incomparableTemporals) := by
  have hlog : IS_LOGIC op = false := by
    cases op <;> simp_all [IS_COMPARISON, IS_LOGIC]
  refine ⟨?_, ?_, ?_, ?_, ?_⟩
  · intro hlt hrt
    have hne : ¬(lt = rt) := by
      intro h; subst h; rw [hlt] at hrt; simp at hrt
    simp [analyze_type_info, bind, Except.bind, hlog, hop, hne, SQLTypeInfo.is_number,
      SQLTypeInfo.is_time, hlt, hrt, bool_result, tinfo2]
  · intro hlt hrt
    have hne : ¬(lt = rt) := by
      intro h; subst h; rw [hlt] at hrt; simp at hrt
    simp [analyze_type_info, bind, Except.bind, hlog, hop, hne, SQLTypeInfo.is_number,
      SQLTypeInfo.is_time, hlt, hrt, bool_result, tinfo2]
  · intro hlt hrt
    by_cases heq : lt = rt
    · subst heq
      refine ⟨lt, lt, ?_, hlt, (max_self _).symm, hlt, (max_self _).symm⟩
      simp [analyze_type_info, bind, Except.bind, hlog, hop, bool_result, tinfo2]
    · refine ⟨tinfo4 kTIMESTAMP (max lt.dimension rt.dimension) 0 lt.notnull,
        tinfo4 kTIMESTAMP (max lt.dimension rt.dimension) 0 rt.notnull,
        ?_, rfl, rfl, rfl, rfl⟩
      simp [analyze_type_info, bind, Except.bind, hlog, hop, heq, SQLTypeInfo.is_number,
        SQLTypeInfo.is_time, hlt, hrt, bool_result, tinfo2, tinfo4]
  · intro hlt hrt
    by_cases heq : lt = rt
    · subst heq
      refine ⟨lt, lt, ?_, hlt, (max_self _).symm, hlt, (max_self _).symm⟩
      simp [analyze_type_info, bind, Except.bind, hlog, hop, bool_result, tinfo2]
    · refine ⟨tinfo4 kTIME (max lt.dimension rt.dimension) 0 lt.notnull,
        tinfo4 kTIME (max lt.dimension rt.dimension) 0 rt.notnull,
        ?_, rfl, rfl, rfl, rfl⟩
      simp [analyze_type_info, bind, Except.bind, hlog, hop, heq, SQLTypeInfo.is_number,
        SQLTypeInfo.is_time, hlt, hrt, bool_result, tinfo2, tinfo4]
  · intro hcase
    rcases hcase with ⟨hlt, hrt⟩ | ⟨hlt, hrt⟩ | ⟨hlt, hrt⟩ | ⟨hlt, hrt⟩ <;>
    · have hne : ¬(lt = rt) := by
        intro h; subst h; rw [hlt] at hrt; simp at hrt
      simp [analyze_type_info, bind, Except.bind, hlog, hop, hne, SQLTypeInfo.is_number,
        SQLTypeInfo.is_time, hlt, hrt]

/-- C3 witness: the matrix theorem at EQ with TIMESTAMP(0) vs DATE (both
coerced to TIMESTAMP(0), result BOOLEAN) and at EQ with TIME vs DATE
(IncomparableTemporals). -/
theorem C3_analyze_type_temporal_matrix_witness :
    analyze_type_info kEQ c3_ts0 c3_date =
      .ok (bool_result false, c3_ts0, c3_ts0) ∧
    analyze_type_info kEQ c3_time c3_date =
      .error .incomparableTemporals :=
  ⟨(C3_analyze_type_temporal_matrix kEQ rfl c3_ts0 c3_date).1 rfl rfl,
   (C3_analyze_type_temporal_matrix kEQ rfl c3_time c3_date).2.2.2.2
     (Or.inr (Or.inr (Or.inl ⟨rfl, rfl⟩)))⟩

/-- C7: for a BinOper with a comparison optype and qualifier ONE,
normalize_simple_predicate on ColumnVar-vs-Constant returns a deep copy of
the node with rte_idx set to the ColumnVar's rte_idx; on
Constant-vs-ColumnVar it returns the operands swapped under
COMMUTE_COMPARISON with rte_idx set; every other operand shape, and every
non-comparison optype or ANY/ALL qualifier, returns the null sentinel with
rte_idx left at -1. -/
theorem C7_normalize_simple_predicate (ti : SQLTypeInfo) (ca : Bool) :
    (∀ (op : SQLOps) (q : SQLQualifier), IS_COMPARISON op = true → q = kONE →
      (∀ (tiL : SQLTypeInfo) (t c rte : Int) (tiR : SQLTypeInfo) (n : Bool)
          (d : Datum),
        normalize_simple_predicate ti ca op q (.columnVar tiL t c rte)
            (.constant tiR n d) =
          (some (.binOper ti ca op q (.columnVar tiL t c rte)
            (.constant tiR n d)), rte)) ∧
      (∀ (tiL : SQLTypeInfo) (t c rte : Int) (tiR : SQLTypeInfo) (n : Bool)
          (d : Datum),
        normalize_simple_predicate ti ca op q (.constant tiR n d)
            (.columnVar tiL t c rte) =
          (some (.binOper ti ca (COMMUTE_COMPARISON op) q
            (.columnVar tiL t c rte) (.constant tiR n d)), rte)) ∧
      (∀ l r : Expr,
        ¬(isColumnVarTag l = true ∧ isConstantTag r = true) →
        ¬(isConstantTag l = true ∧ isColumnVarTag r = true) →
        normalize_simple_predicate ti ca op q l r = (none, -1))) ∧
    (∀ (op : SQLOps) (q : SQLQualifier) (l r : Expr),
      IS_COMPARISON op = false ∨ q ≠ kONE →
      normalize_simple_predicate ti ca op q l r = (none, -1)) := by
  constructor
  · intro op q hop hq
    refine ⟨?_, ?_, ?_⟩
    · intro tiL t c rte tiR n d
      simp [normalize_simple_predicate, hop, hq, deep_copy]
    · intro tiL t c rte tiR n d
      simp [normalize_simple_predicate, hop, hq, deep_copy]
    · intro l r hshape1 hshape2
      cases l <;> cases r <;>
        simp_all [normalize_simple_predicate, hop, hq, isColumnVarTag,
          isConstantTag]
  · intro op q l r hbad
    rcases hbad with h | h <;> simp [normalize_simple_predicate, h]

/-- C7 witness: the normalization theorem at the concrete predicate
3 < t1.a (Constant LT ColumnVar), which normalizes to t1.a > 3 with rte_idx
taken from the ColumnVar, and at an ANY-qualified comparison, which returns
the null sentinel and -1. -/
theorem C7_normalize_simple_predicate_witness :
    normalize_simple_predicate (tinfo2 kBOOLEAN false) false kLT kONE
        (.constant (tinfo2 kINT false) false {intval := 3})
        (.columnVar (tinfo2 kINT false) 1 1 0) =
      (some (.binOper (tinfo2 kBOOLEAN false) false kGT kONE
        (.columnVar (tinfo2 kINT false) 1 1 0)
        (.constant (tinfo2 kINT false) false {intval := 3})), 0) ∧
    normalize_simple_predicate (tinfo2 kBOOLEAN false) false kLT kANY
        (.constant (tinfo2 kINT false) false {intval := 3})
        (.columnVar (tinfo2 kINT false) 1 1 0) =
      (none, -1) :=
  ⟨((C7_normalize_simple_predicate (tinfo2 kBOOLEAN false) false).1 kLT kONE
      rfl rfl).2.1 (tinfo2 kINT false) 1 1 0 (tinfo2 kINT false) false
      {intval := 3},
   (C7_normalize_simple_predicate (tinfo2 kBOOLEAN false) false).2 kLT kANY
      _ _ (Or.inr (by decide))⟩

/-- C9: for every Constant whose is_null flag is true and every target type,
add_cast never fails and performs no castability check: it returns the same
Constant node (no cast wrapper, whatever the compressions), with its
type_info set to the target and its payload reset to the target's
kind-specific null sentinel via set_null_value. -/
theorem C9_null_constant_add_cast (ti0 new_ti : SQLTypeInfo) (d : Datum) :
    add_cast (.constant ti0 true d) new_ti =
      .ok (.constant new_ti true (set_null_value new_ti d)) := rfl

/-- C10: when UOper::add_cast performs the string-to-dict collapse (the node
is a CAST whose own type is a NONE-encoded string, the requested target is a
DICT-encoded string, and the operand is a DICT-encoded string whose
comp_param equals or is TRANSIENT_DICT-related to the target's), it returns
the inner operand and, as a side effect, nulls the receiver's operand field,
leaving all other fields of the receiver unchanged. -/
theorem C10_uoper_cast_collapse (ti new_ti : SQLTypeInfo) (ca : Bool)
    (x : Expr)
    (h1 : ti.is_string = true) (h2 : new_ti.is_string = true)
    (h3 : new_ti.compression = kENCODING_DICT)
    (h4 : ti.compression = kENCODING_NONE)
    (h5 : x.type_info.is_string = true)
    (h6 : x.type_info.compression = kENCODING_DICT)
    (h7 : x.type_info.comp_param = new_ti.comp_param ∨
      x.type_info.comp_param = TRANSIENT_DICT new_ti.comp_param) :
    uoper_add_cast_state ti ca kCAST x new_ti =
      .ok (x, ⟨ti, ca, kCAST, none⟩) := by
  rcases h7 with h7 | h7 <;>
    simp [uoper_add_cast_state, h1, h2, h3, h4, h5, h6, h7]

/-- C10 witness: the collapse theorem at a concrete CAST node whose operand
is a DICT(7)-encoded column and whose requested target is DICT(7). -/
theorem C10_uoper_cast_collapse_witness :
    uoper_add_cast_state c10_none_ti false kCAST
        (.columnVar c10_dict_ti 1 1 0) c10_dict_ti =
      .ok (.columnVar c10_dict_ti 1 1 0,
        ⟨c10_none_ti, false, kCAST, none⟩) :=
  C10_uoper_cast_collapse c10_none_ti c10_dict_ti false
    (.columnVar c10_dict_ti 1 1 0) rfl rfl rfl rfl rfl rfl (Or.inl rfl)

/-- Datum_equal is reflexive on every kind in its switch (every kind except
kDATE and kNULLT, which hit CHECK(false)). -/
theorem Datum_equal_refl (ti : SQLTypeInfo) (d : Datum)
    (h1 : ti.type ≠ kDATE) (h2 : ti.type ≠ kNULLT) :
    Datum_equal ti d d = some true := by
  cases hty : ti.type <;> simp_all [Datum_equal]

mutual

/-- deep_copy succeeds and returns a value-identical tree on every
well-formed (in particular Subquery-free) expression. -/
theorem deep_copy_wf : (e : Expr) → wf_eq e = true → deep_copy e = some e
  | .columnVar _ _ _ _, _ => rfl
  | .var _ _ _ _ _ _, _ => rfl
  | .constant _ _ _, _ => rfl
  | .uoper _ _ _ x, h => by
    rw [deep_copy, deep_copy_wf x (by simpa [wf_eq] using h)]; rfl
  | .binOper _ _ _ _ l r, h => by
    have h2 : wf_eq l = true ∧ wf_eq r = true := by simpa [wf_eq] using h
    rw [deep_copy, deep_copy_wf l h2.1, deep_copy_wf r h2.2]; rfl
  | .subquery _, h => by simp [wf_eq] at h
  | .inValues _ a vs, h => by
    have h2 : wf_eq a = true ∧ wfEqList vs = true := by simpa [wf_eq] using h
    rw [deep_copy, deep_copy_wf a h2.1, deepCopyList_wf vs h2.2]; rfl
  | .charLengthExpr _ a _, h => by
    rw [deep_copy, deep_copy_wf a (by simpa [wf_eq] using h)]; rfl
  | .likeExpr _ a l esc _ _, h => by
    have h2 : (wf_eq a = true ∧ wf_eq l = true) ∧ wfEqOpt esc = true := by
      simpa [wf_eq, and_assoc] using h
    rw [deep_copy, deep_copy_wf a h2.1.1, deep_copy_wf l h2.1.2,
      deepCopyOpt_wf esc h2.2]; rfl
  | .aggExpr _ _ arg _, h => by
    rw [deep_copy, deepCopyOpt_wf arg (by simpa [wf_eq] using h)]; rfl
  | .caseExpr _ _ ps els, h => by
    have h2 : wfEqPairs ps = true ∧ wfEqOpt els = true := by
      simpa [wf_eq] using h
    rw [deep_copy, deepCopyPairs_wf ps h2.1, deepCopyOpt_wf els h2.2]; rfl
  | .extractExpr _ _ _ x, h => by
    rw [deep_copy, deep_copy_wf x (by simpa [wf_eq] using h)]; rfl
  | .datetruncExpr _ _ _ x, h => by
    rw [deep_copy, deep_copy_wf x (by simpa [wf_eq] using h)]; rfl

/-- deepCopyList on well-formed children. -/
theorem deepCopyList_wf :
    (l : List Expr) → wfEqList l = true → deepCopyList l = some l
  | [], _ => rfl
  | x :: xs, h => by
    have h2 : wf_eq x = true ∧ wfEqList xs = true := by
      simpa [wfEqList] using h
    rw [deepCopyList, deep_copy_wf x h2.1, deepCopyList_wf xs h2.2]; rfl

/-- deepCopyPairs on well-formed children. -/
theorem deepCopyPairs_wf :
    (l : List (Expr × Expr)) → wfEqPairs l = true → deepCopyPairs l = some l
  | [], _ => rfl
  | (a, b) :: xs, h => by
    have h2 : (wf_eq a = true ∧ wf_eq b = true) ∧ wfEqPairs xs = true := by
      simpa [wfEqPairs, and_assoc] using h
    rw [deepCopyPairs, deep_copy_wf a h2.1.1, deep_copy_wf b h2.1.2,
      deepCopyPairs_wf xs h2.2]; rfl

/-- deepCopyOpt on a well-formed optional child. -/
theorem deepCopyOpt_wf :
    (o : Option Expr) → wfEqOpt o = true → deepCopyOpt o = some o
  | none, _ => rfl
  | some x, h => by
    rw [deepCopyOpt, deep_copy_wf x (by simpa [wfEqOpt] using h)]; rfl

end

set_option maxHeartbeats 2000000 in
mutual

/-- operator== is reflexive on every well-formed expression (no Subquery, no
bare ColumnVar with rte_idx -1, no Constant of a kind outside Datum_equal's
switch). -/
theorem exprEq_refl : (e : Expr) → wf_eq e = true → exprEq e e = some true
  | .columnVar _ _ _ r, h => by
    have hr : ¬r = -1 := by simpa [wf_eq] using h
    simp [exprEq, hr]
  | .var _ _ _ r _ _, _ => by
    by_cases hr : r = -1 <;> simp [exprEq, hr]
  | .constant ti n d, h => by
    have h2 : ti.type ≠ kDATE ∧ ti.type ≠ kNULLT := by simpa [wf_eq] using h
    simp [exprEq, Datum_equal_refl ti d h2.1 h2.2]
  | .uoper _ _ _ x, h => by
    simp [exprEq, bind, Option.bind,
      exprEq_refl x (by simpa [wf_eq] using h)]
  | .binOper _ _ _ _ l r, h => by
    have h2 : wf_eq l = true ∧ wf_eq r = true := by simpa [wf_eq] using h
    simp [exprEq, bind, Option.bind, exprEq_refl l h2.1, exprEq_refl r h2.2]
  | .subquery _, h => by simp [wf_eq] at h
  | .inValues _ a vs, h => by
    have h2 : wf_eq a = true ∧ wfEqList vs = true := by simpa [wf_eq] using h
    simp [exprEq, bind, Option.bind, exprEq_refl a h2.1,
      exprEqList_refl vs h2.2]
  | .charLengthExpr _ a _, h => by
    simp [exprEq, bind, Option.bind,
      exprEq_refl a (by simpa [wf_eq] using h)]
  | .likeExpr _ a l esc _ _, h => by
    have h2 : (wf_eq a = true ∧ wf_eq l = true) ∧ wfEqOpt esc = true := by
      simpa [wf_eq, and_assoc] using h
    cases esc with
    | none =>
      simp [exprEq, bind, Option.bind, exprEq_refl a h2.1.1,
        exprEq_refl l h2.1.2]
    | some x =>
      simp [exprEq, bind, Option.bind, exprEq_refl a h2.1.1,
        exprEq_refl l h2.1.2, exprEq_refl x (by simpa [wfEqOpt] using h2.2)]
  | .aggExpr _ _ arg _, h => by
    cases arg with
    | none => simp [exprEq]
    | some x =>
      simp [exprEq, exprEq_refl x (by simpa [wf_eq, wfEqOpt] using h)]
  | .caseExpr _ _ ps els, h => by
    have h2 : wfEqPairs ps = true ∧ wfEqOpt els = true := by
      simpa [wf_eq] using h
    cases els with
    | none => simp [exprEq, bind, Option.bind, exprEqPairs_refl ps h2.1]
    | some x =>
      simp [exprEq, bind, Option.bind, exprEqPairs_refl ps h2.1,
        exprEq_refl x (by simpa [wfEqOpt] using h2.2)]
  | .extractExpr _ _ _ x, h => by
    simp [exprEq, exprEq_refl x (by simpa [wf_eq] using h)]
  | .datetruncExpr _ _ _ x, h => by
    simp [exprEq, exprEq_refl x (by simpa [wf_eq] using h)]

/-- Element-wise operator== is reflexive on well-formed lists. -/
theorem exprEqList_refl :
    (l : List Expr) → wfEqList l = true → exprEqList l l = some true
  | [], _ => rfl
  | x :: xs, h => by
    have h2 : wf_eq x = true ∧ wfEqList xs = true := by
      simpa [wfEqList] using h
    rw [exprEqList, exprEq_refl x h2.1]
    exact exprEqList_refl xs h2.2

/-- Pair-wise operator== is reflexive on well-formed pair lists. -/
theorem exprEqPairs_refl :
    (l : List (Expr × Expr)) → wfEqPairs l = true →
      exprEqPairs l l = some true
  | [], _ => rfl
  | (a, b) :: xs, h => by
    have h2 : (wf_eq a = true ∧ wf_eq b = true) ∧ wfEqPairs xs = true := by
      simpa [wfEqPairs, and_assoc] using h
    rw [exprEqPairs, exprEq_refl a h2.1.1, exprEq_refl b h2.1.2]
    exact exprEqPairs_refl xs h2.2

end

/-- Writing through a freshly appended cell does not change reads of the
cells already present. -/
theorem set_fresh_getD (l : List String) (x s' : String) (i : Nat)
    (h : i < l.length) :
    ((l ++ [x]).set l.length s').getD i "" = l.getD i "" := by
  induction l generalizing i with
  | nil => exact absurd h (by simp)
  | cons a as ih =>
    cases i with
    | zero => rfl
    | succ j =>
      have hj : j < as.length := by simpa using h
      simpa [List.getD] using ih j hj

/-- The fresh cell allocated by Constant::deep_copy for a non-null string
constant is a different address than the original's, and writing through the
copy's address leaves the string read through the original's address
unchanged. -/
theorem constant_deep_copy_no_alias (store : List String) (c : ConstantH)
    (s' : String) (hstr : c.ti.is_string = true) (hnn : c.is_null = false)
    (haddr : c.addr < store.length) :
    (constant_deep_copy_h c store).1.addr ≠ c.addr ∧
    ((constant_deep_copy_h c store).2.set
        (constant_deep_copy_h c store).1.addr s').getD c.addr "" =
      store.getD c.addr "" := by
  have hcopy : constant_deep_copy_h c store =
      (⟨c.ti, c.is_null, store.length⟩, store ++ [store.getD c.addr ""]) := by
    simp [constant_deep_copy_h, hstr, hnn]
  rw [hcopy]
  dsimp only
  exact ⟨by omega, set_fresh_getD store _ s' c.addr haddr⟩

/-- C5 counterexample: a plain ColumnVar with rte_idx = -1 contains no
Subquery and deep-copies to an identical node, yet operator== on the copy
returns false (ColumnVar equality at rte_idx = -1 requires both sides to be
the Var subclass, Analyzer.cpp lines 1230-1244), refuting
"e.deep_copy().equals(e)" for every Subquery-free expression. -/
theorem C5_counterexample :
    deep_copy c5_cv = some c5_cv ∧ exprEq c5_cv c5_cv = some false :=
  ⟨rfl, rfl⟩

/-- C5 (amended): for every expression containing no Subquery, in which every
bare ColumnVar with rte_idx = -1 is a Var and every Constant's kind is in
Datum_equal's switch (not DATE or NULLT, which abort), deep_copy succeeds and
the copy equals the original; and at the heap level the copy of a non-null
string Constant owns a fresh string cell, so mutating the copy's payload does
not change the original's value. -/
theorem C5_deep_copy_equals :
    (∀ e : Expr, wf_eq e = true →
      ∃ cpy, deep_copy e = some cpy ∧ exprEq cpy e = some true) ∧
    (∀ (store : List String) (c : ConstantH) (s' : String),
      c.ti.is_string = true → c.is_null = false → c.addr < store.length →
      (constant_deep_copy_h c store).1.addr ≠ c.addr ∧
      ((constant_deep_copy_h c store).2.set
          (constant_deep_copy_h c store).1.addr s').getD c.addr "" =
        store.getD c.addr "") := by
  constructor
  · intro e h
    exact ⟨e, deep_copy_wf e h, exprEq_refl e h⟩
  · intro store c s' h1 h2 h3
    exact constant_deep_copy_no_alias store c s' h1 h2 h3

/-- C5 witness: the amended theorem at a concrete INT constant (copy exists
and equals it) and at a concrete heap with the string 'hello' at address 0
(the copy writes at the fresh address 1, the original still reads 'hello'). -/
theorem C5_deep_copy_equals_witness :
    (∃ cpy, deep_copy c5_const = some cpy ∧ exprEq cpy c5_const = some true) ∧
    (constant_deep_copy_h c5_ch ["hello"]).1.addr ≠ c5_ch.addr ∧
    ((constant_deep_copy_h c5_ch ["hello"]).2.set
        (constant_deep_copy_h c5_ch ["hello"]).1.addr "mutated").getD
      c5_ch.addr "" = ["hello"].getD c5_ch.addr "" :=
  ⟨C5_deep_copy_equals.1 c5_const rfl,
   C5_deep_copy_equals.2 ["hello"] c5_ch "mutated" rfl rfl (by decide)⟩

/-- push3 appends the node to the single list selected by the size of the
collected set. -/
theorem push3_eq_singleton3 (e : Expr) (s : Finset Int) :
    push3 e s = singleton3 e (classOfCard s.card) := by
  unfold push3 classOfCard singleton3
  split_ifs <;> rfl

/-- On every node that classify places (every non-AND node the source
appends somewhere), group_predicates produces exactly the singleton triple of
that class. -/
theorem group_predicates_classified (e : Expr) (k : PredClass)
    (hcl : classify e = some k) :
    group_predicates e = singleton3 e k := by
  cases e with
  | binOper ti ca op q l r =>
    by_cases hop : op = kAND
    · subst hop; simp [classify] at hcl
    · simp only [classify, hop, if_false, Option.some.injEq, ite_false] at hcl
      simp [group_predicates, hop, push3_eq_singleton3, hcl]
  | columnVar ti t c r =>
    by_cases hb : ti.type = kBOOLEAN
    · simp only [classify, hb, if_true, Option.some.injEq] at hcl
      subst hcl
      simp [group_predicates, hb, singleton3]
    · simp [classify, hb] at hcl
  | var ti t c r w v =>
    by_cases hb : ti.type = kBOOLEAN
    · simp only [classify, hb, if_true, Option.some.injEq] at hcl
      subst hcl
      simp [group_predicates, hb, singleton3]
    · simp [classify, hb] at hcl
  | constant ti n d =>
    simp only [classify, Option.some.injEq] at hcl
    subst hcl
    simp [group_predicates, singleton3]
  | subquery ti => simp [classify] at hcl
  | uoper ti ca op x =>
    simp only [classify, Option.some.injEq] at hcl
    simp [group_predicates, push3_eq_singleton3, hcl]
  | inValues ti a vs =>
    simp only [classify, Option.some.injEq] at hcl
    simp [group_predicates, push3_eq_singleton3, hcl]
  | charLengthExpr ti a ce =>
    simp only [classify, Option.some.injEq] at hcl
    simp [group_predicates, push3_eq_singleton3, hcl]
  | likeExpr ti a l esc il is =>
    simp only [classify, Option.some.injEq] at hcl
    simp [group_predicates, push3_eq_singleton3, hcl]
  | aggExpr ti ag arg dis =>
    cases arg with
    | none => simp [classify] at hcl
    | some a =>
      simp only [classify, Option.some.injEq] at hcl
      simp [group_predicates, push3_eq_singleton3, hcl]
  | caseExpr ti ca ps els =>
    simp only [classify, Option.some.injEq] at hcl
    simp [group_predicates, push3_eq_singleton3, hcl]
  | extractExpr ti ca f x =>
    simp only [classify, Option.some.injEq] at hcl
    simp [group_predicates, push3_eq_singleton3, hcl]
  | datetruncExpr ti ca f x =>
    simp only [classify, Option.some.injEq] at hcl
    simp [group_predicates, push3_eq_singleton3, hcl]

/-- partition3 of a one-conjunct list of a placed node is its singleton
triple. -/
theorem partition3_single (e : Expr) (k : PredClass)
    (h : classify e = some k) : partition3 [e] = singleton3 e k := by
  cases k <;> simp_all [partition3, singleton3]

/-- partition3 distributes over append. -/
theorem partition3_append (l1 l2 : List Expr) :
    partition3 (l1 ++ l2) =
      ((partition3 l1).1 ++ (partition3 l2).1,
       (partition3 l1).2.1 ++ (partition3 l2).2.1,
       (partition3 l1).2.2 ++ (partition3 l2).2.2) := by
  simp [partition3]

/-- Every non-AND node has a singleton conjunct list. -/
theorem flatten_conjuncts_single (e : Expr)
    (h : ∀ ti ca q l r, e ≠ .binOper ti ca kAND q l r) :
    flatten_conjuncts e = [e] := by
  cases e with
  | binOper ti ca op q l r =>
    by_cases hop : op = kAND
    · subst hop; exact absurd rfl (h ti ca q l r)
    · simp [flatten_conjuncts, hop]
  | _ => rfl

/-- Any node whose conjunct list is itself alone satisfies the partition
statement, provided it is placed. -/
theorem group_predicates_partition_single (e : Expr)
    (hfl : flatten_conjuncts e = [e]) (h : wf_predicate e = true) :
    group_predicates e = partition3 (flatten_conjuncts e) := by
  have hks : (classify e).isSome := by simpa [wf_predicate, hfl] using h
  obtain ⟨k, hk⟩ := Option.isSome_iff_exists.mp hks
  rw [hfl, partition3_single e k hk, group_predicates_classified e k hk]

/-- group_predicates realizes the partition of the flattened conjuncts by
classify on every predicate whose conjuncts are all placed. -/
theorem group_predicates_partition :
    (e : Expr) → wf_predicate e = true →
      group_predicates e = partition3 (flatten_conjuncts e)
  | .binOper ti ca op q l r, h => by
    by_cases hop : op = kAND
    · subst hop
      have hw : wf_predicate l = true ∧ wf_predicate r = true := by
        simpa [wf_predicate, flatten_conjuncts, List.all_append] using h
      have ihl := group_predicates_partition l hw.1
      have ihr := group_predicates_partition r hw.2
      simp [group_predicates, ihl, ihr, flatten_conjuncts, partition3,
        List.filter_append]
    · exact group_predicates_partition_single _
        (by simp [flatten_conjuncts, hop]) h
  | .columnVar ti t c r, h =>
    group_predicates_partition_single _ rfl h
  | .var ti t c r w v, h => group_predicates_partition_single _ rfl h
  | .constant ti n d, h => group_predicates_partition_single _ rfl h
  | .subquery ti, h => group_predicates_partition_single _ rfl h
  | .uoper ti ca op x, h => group_predicates_partition_single _ rfl h
  | .inValues ti a vs, h => group_predicates_partition_single _ rfl h
  | .charLengthExpr ti a ce, h => group_predicates_partition_single _ rfl h
  | .likeExpr ti a l esc il is, h =>
    group_predicates_partition_single _ rfl h
  | .aggExpr ti ag arg dis, h => group_predicates_partition_single _ rfl h
  | .caseExpr ti ca ps els, h => group_predicates_partition_single _ rfl h
  | .extractExpr ti ca f x, h => group_predicates_partition_single _ rfl h
  | .datetruncExpr ti ca f x, h => group_predicates_partition_single _ rfl h

/-- C6 counterexample: a bare ColumnVar of INT type references exactly one
rte, so the claim places it in the scan list, but
ColumnVar::group_predicates appends it to no list at all (it only appends
BOOLEAN ColumnVars, Analyzer.cpp lines 924-929): the conjunct list is the
singleton yet all three output lists are empty. -/
theorem C6_counterexample :
    flatten_conjuncts c6_cv = [c6_cv] ∧
    (collect_rte_idx c6_cv).card = 1 ∧
    group_predicates c6_cv = ([], [], []) :=
  ⟨rfl, rfl, rfl⟩

/-- C6 (amended): group_predicates flattens conjunctions — the two
associations of a three-way AND produce identical output lists — and, for
every predicate whose flattened conjuncts the source actually places (no
bare non-BOOLEAN ColumnVar, no Subquery, no argument-less AggExpr), the
three output lists partition the flattened conjuncts: each conjunct lands in
exactly the list selected by classify, the per-node rte count of the source
(which inspects only the primary argument of InValues, LikeExpr and
AggExpr, and sends every BOOLEAN bare ColumnVar to scan). -/
theorem C6_group_predicates_partition :
    (∀ (ti1 ti2 ti3 ti4 : SQLTypeInfo) (ca1 ca2 ca3 ca4 : Bool)
        (q1 q2 q3 q4 : SQLQualifier) (a b c : Expr),
      group_predicates
          (.binOper ti1 ca1 kAND q1 (.binOper ti2 ca2 kAND q2 a b) c) =
        group_predicates
          (.binOper ti3 ca3 kAND q3 a (.binOper ti4 ca4 kAND q4 b c))) ∧
    (∀ e : Expr, wf_predicate e = true →
      group_predicates e = partition3 (flatten_conjuncts e)) := by
  constructor
  · intro ti1 ti2 ti3 ti4 ca1 ca2 ca3 ca4 q1 q2 q3 q4 a b c
    rcases hga : group_predicates a with ⟨s1, j1, c1⟩
    rcases hgb : group_predicates b with ⟨s2, j2, c2⟩
    rcases hgc : group_predicates c with ⟨s3, j3, c3⟩
    simp [group_predicates, hga, hgb, hgc]
  · exact group_predicates_partition

/-- C6 witness: the amended theorem at scenario S5 — the partition part at
the concrete predicate (t1.a = 3 AND t1.b = t2.b) AND (5 > 1) giving
scan = [t1.a = 3], join = [t1.b = t2.b], const = [5 > 1], and the
associativity part at its three conjuncts. -/
theorem C6_group_predicates_partition_witness :
    group_predicates c6_pred = ([c6_p1], [c6_p2], [c6_p3]) ∧
    group_predicates
        (.binOper c6_bool false kAND kONE
          (.binOper c6_bool false kAND kONE c6_p1 c6_p2) c6_p3) =
      group_predicates
        (.binOper c6_bool false kAND kONE c6_p1
          (.binOper c6_bool false kAND kONE c6_p2 c6_p3)) :=
  ⟨(C6_group_predicates_partition.2 c6_pred (by rfl)).trans (by rfl),
   C6_group_predicates_partition.1 c6_bool c6_bool c6_bool c6_bool
     false false false false kONE kONE kONE kONE c6_p1 c6_p2 c6_p3⟩

mutual

/-- add_cast with the node's own type returns the node unchanged on every
expression satisfying wf_cast: the generic path and the UOper override
short-circuit on the identical type, a Constant's do_cast is a no-op on its
own type (a null Constant re-derives its sentinel payload, which wf_cast says
it already holds), and CaseExpr pushes the cast into branches that already
carry the node's type. -/
theorem add_cast_self : (e : Expr) → wf_cast e = true →
    add_cast e e.type_info = .ok e
  | .columnVar _ _ _ _, _ => by
    simp [add_cast, Expr.type_info, expr_add_cast_generic]
  | .var _ _ _ _ _ _, _ => by
    simp [add_cast, Expr.type_info, expr_add_cast_generic]
  | .constant ti n d, h => by
    cases n with
    | true =>
      have hd : d = set_null_value ti d := by simpa [wf_cast] using h
      simp only [add_cast, Expr.type_info, if_true, ← hd]
    | false =>
      simp [add_cast, Expr.type_info, do_cast, bind, Except.bind]
  | .uoper ti ca op x, _ => by
    by_cases hc : op = kCAST
    · subst hc
      cases hcomp : ti.compression with
      | kENCODING_NONE =>
        simp [add_cast, Expr.type_info, hcomp, expr_add_cast_generic]
      | kENCODING_DICT =>
        simp [add_cast, Expr.type_info, hcomp, expr_add_cast_generic]
    · simp [add_cast, Expr.type_info, hc, expr_add_cast_generic]
  | .binOper _ _ _ _ _ _, _ => by
    simp [add_cast, Expr.type_info, expr_add_cast_generic]
  | .subquery _, h => by simp [wf_cast] at h
  | .inValues _ _ _, _ => by
    simp [add_cast, Expr.type_info, expr_add_cast_generic]
  | .charLengthExpr _ _ _, _ => by
    simp [add_cast, Expr.type_info, expr_add_cast_generic]
  | .likeExpr _ _ _ _ _ _, _ => by
    simp [add_cast, Expr.type_info, expr_add_cast_generic]
  | .aggExpr _ _ _ _, _ => by
    simp [add_cast, Expr.type_info, expr_add_cast_generic]
  | .caseExpr ti ca ps els, h => by
    have h2 : wfCastPairs ps ti = true ∧ wfCastOpt els ti = true := by
      simpa [wf_cast] using h
    have hps := add_cast_self_pairs ps ti h2.1
    have hels := add_cast_self_opt els ti h2.2
    cases hcomp : ti.compression with
    | kENCODING_NONE =>
      simp [add_cast, Expr.type_info, hcomp, hps, hels, bind, Except.bind]
    | kENCODING_DICT =>
      simp [add_cast, Expr.type_info, hcomp, hps, hels, bind, Except.bind]
  | .extractExpr _ _ _ _, _ => by
    simp [add_cast, Expr.type_info, expr_add_cast_generic]
  | .datetruncExpr _ _ _ _, _ => by
    simp [add_cast, Expr.type_info, expr_add_cast_generic]

/-- addCastPairsSnd with the CaseExpr's own type is the identity on
well-formed pair lists. -/
theorem add_cast_self_pairs : (ps : List (Expr × Expr)) →
    (ti : SQLTypeInfo) → wfCastPairs ps ti = true →
      addCastPairsSnd ps ti = .ok ps
  | [], _, _ => rfl
  | (a, b) :: xs, ti, h => by
    have h2 : (b.type_info = ti ∧ wf_cast b = true) ∧
        wfCastPairs xs ti = true := by
      simpa [wfCastPairs, and_assoc] using h
    have hb := add_cast_self b h2.1.2
    rw [h2.1.1] at hb
    rw [addCastPairsSnd, hb, add_cast_self_pairs xs ti h2.2]
    rfl

/-- addCastOpt with the CaseExpr's own type is the identity on a well-formed
optional branch. -/
theorem add_cast_self_opt : (els : Option Expr) → (ti : SQLTypeInfo) →
    wfCastOpt els ti = true → addCastOpt els ti = .ok els
  | none, _, _ => rfl
  | some x, ti, h => by
    have h2 : x.type_info = ti ∧ wf_cast x = true := by
      simpa [wfCastOpt] using h
    have hx := add_cast_self x h2.2
    rw [h2.1] at hx
    rw [addCastOpt, hx]
    rfl

end

/-- C8 counterexample: CaseExpr::add_cast does not short-circuit on the
node's own type; it pushes the cast into every `then` branch, so a CaseExpr
of type INT holding a SMALLINT `then` branch is mutated by
add_cast(own type) — the resulting tree is not equal to the original
(operator== returns false), refuting "add_cast(e.type_info) returns e
unchanged for every variant". -/
theorem C8_counterexample :
    add_cast c8_case (Expr.type_info c8_case) = .ok c8_case_result ∧
    exprEq c8_case_result c8_case = some false :=
  ⟨rfl, rfl⟩

/-- C8 (amended): e.add_cast(e.type_info) returns e unchanged for every
expression without Subquery in which every null Constant already holds its
sentinel payload and every CaseExpr's `then`/`else` branches carry the
CaseExpr's own type_info (the invariants of spec section 3); without the
CaseExpr condition the override rewrites mismatched branches in place, and
Subquery::add_cast aborts even on its own type. -/
theorem C8_add_cast_identity (e : Expr) (h : wf_cast e = true) :
    add_cast e e.type_info = .ok e :=
  add_cast_self e h

/-- C8 witness: the identity theorem at a concrete non-null INT constant. -/
theorem C8_add_cast_identity_witness :
    add_cast c8_wit (Expr.type_info c8_wit) = .ok c8_wit :=
  C8_add_cast_identity c8_wit rfl

end Analyzer2P
